import Mathlib

/-!
Verification of the chatBeto listener's webhook ingestion pipeline.

This file gives a shallow embedding of the parts of the repository that the
checked claims are about:

* the Node `crypto` primitives the signature middleware uses
  (HMAC-SHA256, hex digests, `Buffer.from(-, 'hex')`, `timingSafeEqual`);
* the JavaScript value model (`Json`), `JSON.stringify`, `JSON.parse`,
  truthiness, `||` defaulting, optional chaining and `parseInt`;
* `validateWebhookSignature` from `src/middleware/auth.js`;
* `validateWebhookPayload` from `src/utils/validation.js` (the Joi schemas);
* the `DatabaseService` upsert layer from `src/services/database.js`,
  with the MySQL `INSERT ... ON DUPLICATE KEY UPDATE` statements modelled
  column-for-column;
* the `WebhookController` handlers from `src/controllers/webhook.js`;
* `ChatBETODatabaseService.insertMessage` from
  `src/services/chatbeto-database.js`.

Machine integers are modelled as `Nat`/`Int` with explicit `% 2 ^ 32` where
the SHA-256 arithmetic overflows.  A JavaScript `throw` that a route handler
turns into an HTTP 500 is modelled as an `Option`/flag failure.  Branches
that no claim exercises and that would require modelling MySQL type coercion
of non-string values bound to string columns are mapped to the failure path;
each such spot is marked in a comment.
-/

set_option maxRecDepth 20000

namespace ChatBeto

/-! ## SHA-256 and HMAC-SHA256 (model of Node `crypto.createHmac('sha256', -)`) -/

/-- Right rotation of a 32-bit word. -/
def rotr (n w : Nat) : Nat := ((w >>> n) ||| (w <<< (32 - n))) % 2 ^ 32

def bigSigma0 (x : Nat) : Nat := rotr 2 x ^^^ rotr 13 x ^^^ rotr 22 x

def bigSigma1 (x : Nat) : Nat := rotr 6 x ^^^ rotr 11 x ^^^ rotr 25 x

def smallSigma0 (x : Nat) : Nat := rotr 7 x ^^^ rotr 18 x ^^^ (x >>> 3)

def smallSigma1 (x : Nat) : Nat := rotr 17 x ^^^ rotr 19 x ^^^ (x >>> 10)

def chFn (x y z : Nat) : Nat := (x &&& y) ^^^ ((x ^^^ 0xFFFFFFFF) &&& z)

def majFn (x y z : Nat) : Nat := (x &&& y) ^^^ (x &&& z) ^^^ (y &&& z)

/-- The 64 SHA-256 round constants (FIPS 180-4), in rows of eight. -/
def shaK : List Nat :=
  [0x428a2f98, 0x71374491, 0xb5c0fbcf, 0xe9b5dba5, 0x3956c25b, 0x59f111f1, 0x923f82a4, 0xab1c5ed5] ++
  [0xd807aa98, 0x12835b01, 0x243185be, 0x550c7dc3, 0x72be5d74, 0x80deb1fe, 0x9bdc06a7, 0xc19bf174] ++
  [0xe49b69c1, 0xefbe4786, 0x0fc19dc6, 0x240ca1cc, 0x2de92c6f, 0x4a7484aa, 0x5cb0a9dc, 0x76f988da] ++
  [0x983e5152, 0xa831c66d, 0xb00327c8, 0xbf597fc7, 0xc6e00bf3, 0xd5a79147, 0x06ca6351, 0x14292967] ++
  [0x27b70a85, 0x2e1b2138, 0x4d2c6dfc, 0x53380d13, 0x650a7354, 0x766a0abb, 0x81c2c92e, 0x92722c85] ++
  [0xa2bfe8a1, 0xa81a664b, 0xc24b8b70, 0xc76c51a3, 0xd192e819, 0xd6990624, 0xf40e3585, 0x106aa070] ++
  [0x19a4c116, 0x1e376c08, 0x2748774c, 0x34b0bcb5, 0x391c0cb3, 0x4ed8aa4a, 0x5b9cca4f, 0x682e6ff3] ++
  [0x748f82ee, 0x78a5636f, 0x84c87814, 0x8cc70208, 0x90befffa, 0xa4506ceb, 0xbef9a3f7, 0xc67178f2]

/-- The eight working variables of the SHA-256 compression function. -/
structure Hash8 where
  a : Nat
  b : Nat
  c : Nat
  d : Nat
  e : Nat
  f : Nat
  g : Nat
  h : Nat
deriving Repr, DecidableEq

/-- The SHA-256 initial hash value (FIPS 180-4). -/
def sha256Init : Hash8 :=
  ⟨0x6a09e667, 0xbb67ae85, 0x3c6ef372, 0xa54ff53a, 0x510e527f, 0x9b05688c, 0x1f83d9ab, 0x5be0cd19⟩

/-- Big-endian 8-byte encoding (the length field of the SHA-256 padding). -/
def be64 (n : Nat) : List Nat :=
  [(n >>> 56) % 256, (n >>> 48) % 256, (n >>> 40) % 256, (n >>> 32) % 256,
   (n >>> 24) % 256, (n >>> 16) % 256, (n >>> 8) % 256, n % 256]

/-- Big-endian 4-byte encoding of a 32-bit word. -/
def be32 (n : Nat) : List Nat :=
  [(n >>> 24) % 256, (n >>> 16) % 256, (n >>> 8) % 256, n % 256]

/-- SHA-256 message padding: 0x80, zeros, then the bit length, to a 64-byte boundary. -/
def sha256Pad (msg : List Nat) : List Nat :=
  let L := msg.length
  let k := (55 + 64 - L % 64) % 64
  msg ++ 0x80 :: List.replicate k 0 ++ be64 (8 * L)

def chunksGo : Nat → List Nat → List (List Nat)
  | 0, _ => []
  | _, [] => []
  | fuel + 1, l => l.take 64 :: chunksGo fuel (l.drop 64)

/-- Split a byte list into 64-byte blocks. -/
def chunks64 (l : List Nat) : List (List Nat) := chunksGo l.length l

/-- Big-endian 32-bit words of a block. -/
def wordsOf : List Nat → List Nat
  | a :: b :: c :: d :: rest => (a * 2 ^ 24 + b * 2 ^ 16 + c * 2 ^ 8 + d) :: wordsOf rest
  | _ => []

/-- Message-schedule extension; the accumulator is kept most-recent-first. -/
def schedGo : Nat → List Nat → List Nat
  | 0, acc => acc
  | fuel + 1, acc =>
    let x := (smallSigma1 (acc.getD 1 0) + acc.getD 6 0 +
              smallSigma0 (acc.getD 14 0) + acc.getD 15 0) % 2 ^ 32
    schedGo fuel (x :: acc)

/-- The 64-entry message schedule of a block. -/
def schedule (block : List Nat) : List Nat := (schedGo 48 (wordsOf block).reverse).reverse

/-- One round of the SHA-256 compression function. -/
def compressRound (st : Hash8) (kt wt : Nat) : Hash8 :=
  let t1 := (st.h + bigSigma1 st.e + chFn st.e st.f st.g + kt + wt) % 2 ^ 32
  let t2 := (bigSigma0 st.a + majFn st.a st.b st.c) % 2 ^ 32
  { a := (t1 + t2) % 2 ^ 32, b := st.a, c := st.b, d := st.c,
    e := (st.d + t1) % 2 ^ 32, f := st.e, g := st.f, h := st.g }

/-- Process one 64-byte block. -/
def compressBlock (h0 : Hash8) (block : List Nat) : Hash8 :=
  let st := (shaK.zip (schedule block)).foldl (fun st kw => compressRound st kw.1 kw.2) h0
  { a := (h0.a + st.a) % 2 ^ 32, b := (h0.b + st.b) % 2 ^ 32,
    c := (h0.c + st.c) % 2 ^ 32, d := (h0.d + st.d) % 2 ^ 32,
    e := (h0.e + st.e) % 2 ^ 32, f := (h0.f + st.f) % 2 ^ 32,
    g := (h0.g + st.g) % 2 ^ 32, h := (h0.h + st.h) % 2 ^ 32 }

/-- SHA-256 digest (32 bytes) of a byte list. -/
def sha256 (msg : List Nat) : List Nat :=
  let hh := (chunks64 (sha256Pad msg)).foldl compressBlock sha256Init
  be32 hh.a ++ be32 hh.b ++ be32 hh.c ++ be32 hh.d ++
  be32 hh.e ++ be32 hh.f ++ be32 hh.g ++ be32 hh.h

/-- HMAC-SHA256 (FIPS 198) with the 64-byte SHA-256 block size. -/
def hmacSha256 (key msg : List Nat) : List Nat :=
  let k0 := if key.length > 64 then sha256 key else key
  let k := k0 ++ List.replicate (64 - k0.length) 0
  sha256 (k.map (fun b => b ^^^ 0x5c) ++ sha256 (k.map (fun b => b ^^^ 0x36) ++ msg))

def hexChars : List Char := "0123456789abcdef".data

def hexDigitChar (n : Nat) : Char := hexChars.getD n '0'

/-- Lowercase hex encoding of a byte list (Node `digest('hex')`). -/
def bytesToHex (bs : List Nat) : String :=
  String.mk (bs.flatMap (fun b => [hexDigitChar (b / 16 % 16), hexDigitChar (b % 16)]))

/-- UTF-8 encoding of one character. -/
def utf8Bytes (c : Char) : List Nat :=
  let n := c.toNat
  if n < 0x80 then [n]
  else if n < 0x800 then [0xC0 ||| (n >>> 6), 0x80 ||| (n &&& 0x3F)]
  else if n < 0x10000 then
    [0xE0 ||| (n >>> 12), 0x80 ||| ((n >>> 6) &&& 0x3F), 0x80 ||| (n &&& 0x3F)]
  else
    [0xF0 ||| (n >>> 18), 0x80 ||| ((n >>> 12) &&& 0x3F),
     0x80 ||| ((n >>> 6) &&& 0x3F), 0x80 ||| (n &&& 0x3F)]

/-- UTF-8 bytes of a string (Node hashes string inputs as UTF-8). -/
def strBytes (s : String) : List Nat := s.data.flatMap utf8Bytes

/-- Hex HMAC-SHA256 digest of a string message under a string secret, as
`crypto.createHmac('sha256', secret).update(msg).digest('hex')` produces it. -/
def hmacSha256Hex (secret msg : String) : String :=
  bytesToHex (hmacSha256 (strBytes secret) (strBytes msg))

/-! ## Node `Buffer.from(-, 'hex')` and `crypto.timingSafeEqual` -/

/-- Value of one hex digit; `none` for a non-hex character. -/
def hexVal (c : Char) : Option Nat :=
  if '0' ≤ c ∧ c ≤ '9' then some (c.toNat - 48)
  else if 'a' ≤ c ∧ c ≤ 'f' then some (c.toNat - 87)
  else if 'A' ≤ c ∧ c ≤ 'F' then some (c.toNat - 55)
  else none

/-- Hex decoding of char pairs; decoding stops at the first invalid pair and an
odd trailing character is dropped, as `Buffer.from(s, 'hex')` does. -/
def hexDecodeGo : List Char → List Nat
  | c1 :: c2 :: rest =>
    match hexVal c1, hexVal c2 with
    | some hi, some lo => (hi * 16 + lo) :: hexDecodeGo rest
    | _, _ => []
  | _ => []

/-- Model of `Buffer.from(s, 'hex')` as a byte list. -/
def hexDecode (s : String) : List Nat := hexDecodeGo s.data

/-- Model of `crypto.timingSafeEqual`: `none` models the `RangeError` it throws
when the two buffers differ in length; otherwise the comparison result. -/
def timingSafeEqual (a b : List Nat) : Option Bool :=
  if a.length = b.length then some (a = b) else none

/-! ## JavaScript value and string primitives -/

/-- Model of `parseInt(s)` (radix 10): skip leading whitespace, optional sign,
then leading decimal digits; `none` models `NaN`.  The `0x` hex-prefix form of
`parseInt` is not modelled (no claim involves it). -/
def parseIntJS (s : String) : Option Int :=
  let cs := s.data.dropWhile (fun c => c = ' ' ∨ c = '\t' ∨ c = '\n' ∨ c = '\r')
  let signAndRest : Bool × List Char :=
    match cs with
    | '-' :: rest => (true, rest)
    | '+' :: rest => (false, rest)
    | _ => (false, cs)
  let digits := signAndRest.2.takeWhile Char.isDigit
  if digits.isEmpty then none
  else
    let n : Nat := digits.foldl (fun acc c => acc * 10 + (c.toNat - 48)) 0
    some (if signAndRest.1 then -(n : Int) else (n : Int))

/-- Drop the first occurrence of `pat` from a character list. -/
def removeFirst (pat : List Char) : List Char → List Char
  | [] => []
  | c :: rest =>
    if pat.isPrefixOf (c :: rest) then rest.drop (pat.length - 1)
    else c :: removeFirst pat rest

/-- Model of JavaScript `s.replace(pat, '')` with a string pattern: the first
occurrence of `pat`, anywhere in `s`, is removed. -/
def jsReplaceOnce (s pat : String) : String := String.mk (removeFirst pat.data s.data)

/-- JavaScript values as `express.json()` produces them: the JSON data model.
`undefined` is represented as `Option.none` at use sites, never as a `Json`. -/
inductive Json where
  | null : Json
  | bool : Bool → Json
  | num : Int → Json
  | str : String → Json
  | arr : List Json → Json
  | obj : List (String × Json) → Json

/-- First-match association lookup among an object's properties. -/
def lookupField : List (String × Json) → String → Option Json
  | [], _ => none
  | (k', v) :: rest, k => if k' = k then some v else lookupField rest k

/-- JavaScript property access `j[k]`; `none` models `undefined`.  Property
access on a non-object yields `undefined` (no claim reads built-in properties
such as `length`). -/
def Json.get (j : Json) (k : String) : Option Json :=
  match j with
  | .obj fs => lookupField fs k
  | _ => none

/-- JavaScript truthiness of a defined value. -/
def Json.truthy : Json → Bool
  | .null => false
  | .bool b => b
  | .num n => n ≠ 0
  | .str s => s ≠ ""
  | .arr _ => true
  | .obj _ => true

/-- Truthiness of a possibly-`undefined` value. -/
def jsTruthy (v : Option Json) : Bool :=
  match v with
  | some j => j.truthy
  | none => false

/-- JavaScript `a || b` for a possibly-`undefined` `a` and a defined `b`. -/
def jsOr (a : Option Json) (b : Json) : Json :=
  match a with
  | some v => if v.truthy then v else b
  | none => b

/-- JavaScript `a || b` where both sides may be `undefined`. -/
def jsOrOpt (a b : Option Json) : Option Json :=
  match a with
  | some v => if v.truthy then some v else b
  | none => b

/-- JavaScript optional chaining `a?.k`. -/
def optChain (a : Option Json) (k : String) : Option Json :=
  match a with
  | some .null => none
  | some v => v.get k
  | none => none

/-- JSON string escaping as `JSON.stringify` performs it. -/
def jsonEscChar (c : Char) : List Char :=
  if c = '"' then ['\\', '"']
  else if c = '\\' then ['\\', '\\']
  else if c = '\n' then ['\\', 'n']
  else if c = '\t' then ['\\', 't']
  else if c = '\r' then ['\\', 'r']
  else if c = '\x08' then ['\\', 'b']
  else if c = '\x0c' then ['\\', 'f']
  else if c.toNat < 32 then
    ['\\', 'u', '0', '0', hexDigitChar (c.toNat / 16), hexDigitChar (c.toNat % 16)]
  else [c]

/-- A quoted, escaped JSON string literal. -/
def jsonQuote (s : String) : String := "\"" ++ String.mk (s.data.flatMap jsonEscChar) ++ "\""

mutual

/-- Model of `JSON.stringify` on a parsed JSON value: no inserted whitespace,
object properties in stored order.  Numbers are integers in this model, printed
the way JavaScript prints integral numbers. -/
def Json.stringify : Json → String
  | .null => "null"
  | .bool true => "true"
  | .bool false => "false"
  | .num n => toString n
  | .str s => jsonQuote s
  | .arr xs => "[" ++ stringifyElems xs ++ "]"
  | .obj fs => "\x7b" ++ stringifyProps fs ++ "\x7d"

/-- Comma-separated serialization of array elements. -/
def stringifyElems : List Json → String
  | [] => ""
  | [x] => Json.stringify x
  | x :: y :: rest => Json.stringify x ++ "," ++ stringifyElems (y :: rest)

/-- Comma-separated serialization of object properties. -/
def stringifyProps : List (String × Json) → String
  | [] => ""
  | [(k, v)] => jsonQuote k ++ ":" ++ Json.stringify v
  | (k, v) :: p :: rest => jsonQuote k ++ ":" ++ Json.stringify v ++ "," ++ stringifyProps (p :: rest)

end

/-! ## Model of `JSON.parse` (the body parsing `express.json()` performs)

A fuel-indexed recursive-descent parser.  Fractional and exponent number forms
are not modelled (`none`); every claim input uses integral numbers. -/

def isWsChar (c : Char) : Bool := c = ' ' ∨ c = '\t' ∨ c = '\n' ∨ c = '\r'

/-- Model of JavaScript `s.trim()` (ASCII whitespace; the claim inputs use no
exotic Unicode whitespace). -/
def jsTrim (s : String) : String :=
  String.mk (((s.data.dropWhile isWsChar).reverse.dropWhile isWsChar).reverse)

/-- Parse the body of a JSON string literal, after the opening quote. -/
def parseJsonStrGo : List Char → List Char → Option (String × List Char)
  | acc, '"' :: rest => some (String.mk acc.reverse, rest)
  | acc, '\\' :: '"' :: rest => parseJsonStrGo ('"' :: acc) rest
  | acc, '\\' :: '\\' :: rest => parseJsonStrGo ('\\' :: acc) rest
  | acc, '\\' :: '/' :: rest => parseJsonStrGo ('/' :: acc) rest
  | acc, '\\' :: 'n' :: rest => parseJsonStrGo ('\n' :: acc) rest
  | acc, '\\' :: 't' :: rest => parseJsonStrGo ('\t' :: acc) rest
  | acc, '\\' :: 'r' :: rest => parseJsonStrGo ('\r' :: acc) rest
  | acc, '\\' :: 'b' :: rest => parseJsonStrGo ('\x08' :: acc) rest
  | acc, '\\' :: 'f' :: rest => parseJsonStrGo ('\x0c' :: acc) rest
  | acc, '\\' :: 'u' :: c1 :: c2 :: c3 :: c4 :: rest =>
    (match hexVal c1, hexVal c2, hexVal c3, hexVal c4 with
     | some a, some b, some c, some d =>
       parseJsonStrGo (Char.ofNat (((a * 16 + b) * 16 + c) * 16 + d) :: acc) rest
     | _, _, _, _ => none)
  | _, '\\' :: _ => none
  | acc, c :: rest => parseJsonStrGo (c :: acc) rest
  | _, [] => none

/-- Parse a JSON integer literal (optional minus, decimal digits). -/
def parseJsonNum (cs : List Char) : Option (Json × List Char) :=
  let signAndRest : Bool × List Char :=
    match cs with
    | '-' :: rest => (true, rest)
    | _ => (false, cs)
  let digits := signAndRest.2.takeWhile Char.isDigit
  let rest := signAndRest.2.dropWhile Char.isDigit
  if digits.isEmpty then none
  else
    match rest with
    | '.' :: _ => none
    | 'e' :: _ => none
    | 'E' :: _ => none
    | _ =>
      let n : Nat := digits.foldl (fun acc c => acc * 10 + (c.toNat - 48)) 0
      some (.num (if signAndRest.1 then -(n : Int) else (n : Int)), rest)

mutual

/-- Parse one JSON value, leading whitespace allowed. -/
def parseJsonVal : Nat → List Char → Option (Json × List Char)
  | 0, _ => none
  | fuel + 1, cs =>
    match cs.dropWhile isWsChar with
    | 'n' :: 'u' :: 'l' :: 'l' :: rest => some (.null, rest)
    | 't' :: 'r' :: 'u' :: 'e' :: rest => some (.bool true, rest)
    | 'f' :: 'a' :: 'l' :: 's' :: 'e' :: rest => some (.bool false, rest)
    | '"' :: rest => (parseJsonStrGo [] rest).map (fun sr => (.str sr.1, sr.2))
    | '[' :: rest =>
      (match rest.dropWhile isWsChar with
       | ']' :: rest2 => some (.arr [], rest2)
       | rest2 => (parseJsonElems fuel rest2).map (fun er => (.arr er.1, er.2)))
    | '\x7b' :: rest =>
      (match rest.dropWhile isWsChar with
       | '\x7d' :: rest2 => some (.obj [], rest2)
       | rest2 => (parseJsonMembers fuel rest2).map (fun mr => (.obj mr.1, mr.2)))
    | c :: rest => if c = '-' ∨ c.isDigit then parseJsonNum (c :: rest) else none
    | [] => none

/-- Parse `value (, value)* ]` inside an array. -/
def parseJsonElems : Nat → List Char → Option (List Json × List Char)
  | 0, _ => none
  | fuel + 1, cs => do
    let (v, r1) ← parseJsonVal fuel cs
    match r1.dropWhile isWsChar with
    | ',' :: r2 => do
      let (vs, r3) ← parseJsonElems fuel r2
      some (v :: vs, r3)
    | ']' :: r2 => some ([v], r2)
    | _ => none

/-- Parse `"key": value (, "key": value)* \x7d` inside an object. -/
def parseJsonMembers : Nat → List Char → Option (List (String × Json) × List Char)
  | 0, _ => none
  | fuel + 1, cs =>
    match cs.dropWhile isWsChar with
    | '"' :: rest => do
      let (k, r1) ← parseJsonStrGo [] rest
      match r1.dropWhile isWsChar with
      | ':' :: r2 => do
        let (v, r3) ← parseJsonVal fuel r2
        match r3.dropWhile isWsChar with
        | ',' :: r4 => do
          let (ms, r5) ← parseJsonMembers fuel r4
          some ((k, v) :: ms, r5)
        | '\x7d' :: r4 => some ([(k, v)], r4)
        | _ => none
      | _ => none
    | _ => none

end

/-- Model of `JSON.parse`: parse one value and require only trailing
whitespace after it. -/
def jsonParse (s : String) : Option Json := do
  let (v, rest) ← parseJsonVal (s.length + 1) s.data
  if rest.dropWhile isWsChar = [] then some v else none

/-! ## `validateWebhookSignature` (src/middleware/auth.js)

The middleware runs on a request whose body `express.json()` already parsed
(`req.body : Json`) and whose relevant headers may be absent.  Its outcome is
one of the responses below; `pass` means `next()` was called. -/

/-- Outcome of the webhook-signature middleware.  `sigValidationError` models
the `catch` branch (HTTP 500, body error `Signature validation failed`),
reached when `crypto.timingSafeEqual` throws on buffers of unequal length. -/
inductive AuthResult where
  | missingCreds
  | tooOld
  | invalidSignature
  | sigValidationError
  | pass
deriving Repr, DecidableEq

/-- Outcome of the `crypto.timingSafeEqual` call as the middleware consumes it:
equal buffers let the request through (`next()`), unequal buffers are the 401
`Invalid signature` branch, and the thrown `RangeError` on a length mismatch
lands in the catch (HTTP 500). -/
def tseToAuth : Option Bool → AuthResult
  | some true => .pass
  | some false => .invalidSignature
  | none => .sigValidationError

/-- The signature-comparison tail of the middleware, after the freshness check:
`expected` is the HMAC of `timestamp + '.' + JSON.stringify(req.body)`,
`provided` is the header with an optional `sha256=` prefix stripped; both are
hex-decoded and compared with `timingSafeEqual`. -/
def verifySigTail (sig ts : String) (body : Json) (secret : String) : AuthResult :=
  tseToAuth (timingSafeEqual
    (hexDecode (hmacSha256Hex secret (ts ++ "." ++ body.stringify)))
    (hexDecode (jsReplaceOnce sig "sha256=")))

/-- The replay-window check on `parseInt` of the timestamp header: when
`parseInt` yields `NaN` the `Math.abs(now - NaN) > 300` test is false and the
check falls through to the signature comparison, exactly as in the source. -/
def validateFreshSignature (sig ts : String) (body : Json) (now : Int)
    (secret : String) : AuthResult :=
  match parseIntJS ts with
  | some t => if (now - t).natAbs > 300 then .tooOld else verifySigTail sig ts body secret
  | none => verifySigTail sig ts body secret

/-- Model of `validateWebhookSignature`: missing-header check (an absent or
empty header is falsy), then the replay-window check, then the HMAC
comparison. -/
def validateWebhookSignature (signature timestamp : Option String) (body : Json)
    (now : Int) (secret : String) : AuthResult :=
  match signature, timestamp with
  | some sig, some ts =>
    if sig = "" ∨ ts = "" then .missingCreds
    else validateFreshSignature sig ts body now secret
  | _, _ => .missingCreds

/-! ## `validateWebhookPayload` (src/utils/validation.js)

Model of the Joi schemas.  Joi's default `abortEarly` means `error.details`
carries only the first failure, in schema key-declaration order; the collectors
below gather errors in that order and the validator keeps the first.  Joi's
`convert` option (which would accept numeric strings where `Joi.number()` is
required) is not modelled; no claim feeds numeric strings to number fields.
Errors are `(field, message)` pairs, with `field` the Joi `detail.path` joined
with dots, exactly as `validateWebhookPayload` maps them. -/

def joiLabel (path : String) : String := "\"" ++ path ++ "\""

/-- `Joi.string().required()`: a required, non-empty string field. -/
def reqNonEmptyStr (path : String) (v : Option Json) : List (String × String) :=
  match v with
  | none => [(path, joiLabel path ++ " is required")]
  | some (.str s) => if s = "" then [(path, joiLabel path ++ " is not allowed to be empty")] else []
  | some _ => [(path, joiLabel path ++ " must be a string")]

/-- An optional `Joi.string()` field, with the `allow('')` / `allow(null)` flags. -/
def optStrField (allowEmpty allowNull : Bool) (path : String) (v : Option Json) :
    List (String × String) :=
  match v with
  | none => []
  | some .null => if allowNull then [] else [(path, joiLabel path ++ " must be a string")]
  | some (.str s) =>
    if s = "" ∧ ¬allowEmpty then [(path, joiLabel path ++ " is not allowed to be empty")] else []
  | some _ => [(path, joiLabel path ++ " must be a string")]

/-- `Joi.number().required()`. -/
def reqNumField (path : String) (v : Option Json) : List (String × String) :=
  match v with
  | none => [(path, joiLabel path ++ " is required")]
  | some (.num _) => []
  | some _ => [(path, joiLabel path ++ " must be a number")]

/-- An optional `Joi.number()` field. -/
def optNumField (path : String) (v : Option Json) : List (String × String) :=
  match v with
  | none => []
  | some (.num _) => []
  | some _ => [(path, joiLabel path ++ " must be a number")]

/-- An optional `Joi.boolean()` field. -/
def optBoolField (path : String) (v : Option Json) : List (String × String) :=
  match v with
  | none => []
  | some (.bool _) => []
  | some _ => [(path, joiLabel path ++ " must be a boolean")]

/-- `Joi.string().valid('user', 'assistant', 'system').required()`. -/
def roleField (path : String) (v : Option Json) : List (String × String) :=
  match v with
  | none => [(path, joiLabel path ++ " is required")]
  | some (.str s) =>
    if s = "user" ∨ s = "assistant" ∨ s = "system" then []
    else [(path, joiLabel path ++ " must be one of [user, assistant, system]")]
  | some _ => [(path, joiLabel path ++ " must be one of [user, assistant, system]")]

/-- `Joi.alternatives().try(Joi.string(), Joi.object(), Joi.array()).allow(null)`;
the empty string matches none of the alternatives. -/
def altContentField (path : String) (v : Option Json) : List (String × String) :=
  match v with
  | none => []
  | some .null => []
  | some (.str s) =>
    if s = "" then [(path, joiLabel path ++ " does not match any of the allowed types")] else []
  | some (.obj _) => []
  | some (.arr _) => []
  | some _ => [(path, joiLabel path ++ " does not match any of the allowed types")]

/-- `Joi.array().items(Joi.string()).allow(null)` for `children`. -/
def childrenField (path : String) (v : Option Json) : List (String × String) :=
  match v with
  | none => []
  | some .null => []
  | some (.arr xs) =>
    if xs.all (fun j => match j with | .str s => s ≠ "" | _ => false) then []
    else [(path, joiLabel path ++ " must contain strings")]
  | some _ => [(path, joiLabel path ++ " must be an array")]

/-- The `author` sub-object: `Joi.object(name, role).allow(null)`. -/
def authorField (path : String) (v : Option Json) : List (String × String) :=
  match v with
  | none => []
  | some .null => []
  | some (.obj fs) =>
    optStrField false true (path ++ ".name") (lookupField fs "name") ++
    optStrField false true (path ++ ".role") (lookupField fs "role")
  | some _ => [(path, joiLabel path ++ " must be of type object")]

/-- Errors of `conversationSchema`, fields in declaration order. -/
def conversationErrors (path : String) (v : Json) : List (String × String) :=
  match v with
  | .obj _ =>
    reqNonEmptyStr (path ++ ".id") (v.get "id") ++
    optStrField true false (path ++ ".title") (v.get "title") ++
    optStrField false false (path ++ ".model") (v.get "model") ++
    reqNumField (path ++ ".create_time") (v.get "create_time") ++
    reqNumField (path ++ ".update_time") (v.get "update_time") ++
    optStrField false true (path ++ ".project_id") (v.get "project_id") ++
    optStrField false true (path ++ ".openai_thread_id") (v.get "openai_thread_id")
  | _ => [(path, joiLabel path ++ " must be of type object")]

/-- Errors of `messageSchema`, fields in declaration order. -/
def messageErrors (path : String) (v : Json) : List (String × String) :=
  match v with
  | .obj _ =>
    reqNonEmptyStr (path ++ ".id") (v.get "id") ++
    reqNonEmptyStr (path ++ ".conversation_id") (v.get "conversation_id") ++
    roleField (path ++ ".role") (v.get "role") ++
    altContentField (path ++ ".content") (v.get "content") ++
    altContentField (path ++ ".parts") (v.get "parts") ++
    reqNumField (path ++ ".create_time") (v.get "create_time") ++
    optStrField false true (path ++ ".parent") (v.get "parent") ++
    childrenField (path ++ ".children") (v.get "children") ++
    authorField (path ++ ".author") (v.get "author")
  | _ => [(path, joiLabel path ++ " must be of type object")]

/-- Errors of `projectSchema`, fields in declaration order. -/
def projectErrors (path : String) (v : Json) : List (String × String) :=
  match v with
  | .obj _ =>
    optStrField false true (path ++ ".id") (v.get "id") ++
    reqNonEmptyStr (path ++ ".name") (v.get "name") ++
    optStrField true false (path ++ ".description") (v.get "description") ++
    optBoolField (path ++ ".is_starred") (v.get "is_starred") ++
    optStrField false true (path ++ ".chatgpt_project_id") (v.get "chatgpt_project_id")
  | _ => [(path, joiLabel path ++ " must be of type object")]

/-- Errors of `webhookPayloadSchema`: `conversation` is required exactly when no
`message` key is present (`conversationSchema.when('message', ...)`); unknown
extra keys are tolerated (`allowUnknown: true`). -/
def webhookPayloadErrors (payload : Json) : List (String × String) :=
  match payload with
  | .obj _ =>
    (match payload.get "conversation", payload.get "message" with
     | none, none => [("conversation", "\"conversation\" is required")]
     | none, some _ => []
     | some c, _ => conversationErrors "conversation" c) ++
    (match payload.get "message" with
     | none => []
     | some m => messageErrors "message" m) ++
    (match payload.get "project" with
     | none => []
     | some p => projectErrors "project" p) ++
    optStrField false false "event_type" (payload.get "event_type") ++
    optNumField "timestamp" (payload.get "timestamp")
  | _ => [("", "\"value\" must be of type object")]

/-- Result shape of `validateWebhookPayload`. -/
structure ValidationResult where
  isValid : Bool
  errors : List (String × String)
deriving Repr, DecidableEq

/-- Model of `validateWebhookPayload`: valid when no schema error; with Joi's
default `abortEarly`, `error.details` holds the first failure only. -/
def validateWebhookPayload (payload : Json) : ValidationResult :=
  let errs := webhookPayloadErrors payload
  { isValid := errs.isEmpty, errors := errs.take 1 }

/-! ## `DatabaseService` (src/services/database.js)

The MySQL store is modelled as in-memory row lists; each
`INSERT ... ON DUPLICATE KEY UPDATE` statement becomes an upsert that, on a
key collision, overwrites exactly the columns listed in its `UPDATE` clause.
Stored `DATETIME` values (`new Date(seconds * 1000)`) are modelled as epoch
milliseconds. -/

structure ProjectRow where
  name : String
  description : String
  is_starred : Bool
  chatgpt_project_id : Option String
deriving Repr, DecidableEq

structure ConversationRow where
  conversation_id : String
  title : String
  model : String
  create_time : Int
  update_time : Int
  project_id : Option String
  openai_thread_id : Option String
deriving Repr, DecidableEq

structure MessageRow where
  id : String
  conversation_id : String
  role : String
  content : Option String
  parts : Option String
  create_time : Int
  parent : Option String
  children : Option String
  author_name : Option String
deriving Repr, DecidableEq

structure DBState where
  projects : List ProjectRow
  conversations : List ConversationRow
  messages : List MessageRow
deriving Repr, DecidableEq

def emptyDB : DBState := ⟨[], [], []⟩

namespace DatabaseService

/-- `insertConversation`: upsert keyed by `conversation_id`; the `ON DUPLICATE
KEY UPDATE` clause lists title, model, update_time, project_id and
openai_thread_id — `create_time` is not updated. -/
def insertConversation (st : DBState) (d : ConversationRow) : DBState :=
  if st.conversations.any (fun r => r.conversation_id = d.conversation_id) then
    { st with conversations := st.conversations.map (fun r =>
        if r.conversation_id = d.conversation_id then
          { r with title := d.title, model := d.model, update_time := d.update_time,
                   project_id := d.project_id, openai_thread_id := d.openai_thread_id }
        else r) }
  else { st with conversations := st.conversations ++ [d] }

/-- `insertMessage`: upsert keyed by `id`; the `ON DUPLICATE KEY UPDATE` clause
lists role, content, parts, create_time, parent, children and author_name —
`create_time` IS in the update list, `conversation_id` is not. -/
def insertMessage (st : DBState) (d : MessageRow) : DBState :=
  if st.messages.any (fun r => r.id = d.id) then
    { st with messages := st.messages.map (fun r =>
        if r.id = d.id then
          { r with role := d.role, content := d.content, parts := d.parts,
                   create_time := d.create_time, parent := d.parent,
                   children := d.children, author_name := d.author_name }
        else r) }
  else { st with messages := st.messages ++ [d] }

/-- `getConversation`: first row matching `conversation_id`, or null. -/
def getConversation (st : DBState) (cid : String) : Option ConversationRow :=
  st.conversations.find? (fun r => r.conversation_id = cid)

/-- `getProject`: first row matching `name`, or null. -/
def getProject (st : DBState) (nm : String) : Option ProjectRow :=
  st.projects.find? (fun r => r.name = nm)

/-- `createProject`: upsert keyed by `name`; on conflict only description and
chatgpt_project_id are updated. -/
def createProject (st : DBState) (d : ProjectRow) : DBState :=
  if st.projects.any (fun r => r.name = d.name) then
    { st with projects := st.projects.map (fun r =>
        if r.name = d.name then
          { r with description := d.description, chatgpt_project_id := d.chatgpt_project_id }
        else r) }
  else { st with projects := st.projects ++ [d] }

end DatabaseService

/-! ## `WebhookController` (src/controllers/webhook.js)

Handlers are state transformers returning `Option HandlerResult`, where `none`
models a thrown JavaScript error (which `handleChatGPTWebhook` turns into an
HTTP 500); the state is threaded even through failures because the code runs no
transaction — writes made before a throw stay.  Binding `undefined` into a SQL
parameter makes mysql2 throw, and binding a non-string value into a string
column would invoke MySQL coercion which this model does not include; both are
mapped to the thrown-error path (no claim exercises the coercion cases). -/

def asStr : Json → Option String
  | .str s => some s
  | _ => none

/-- A JavaScript `x || 'dflt'` expression bound to a string column. -/
def strColWithDefault (v : Option Json) (dflt : String) : Option String :=
  match v with
  | none => some dflt
  | some j => if j.truthy then asStr j else some dflt

/-- A JavaScript `x || null` expression bound to a nullable string column. -/
def strOrNullCol (v : Option Json) : Option (Option String) :=
  match v with
  | none => some none
  | some j => if j.truthy then (asStr j).map some else some none

/-- A property bound directly (no `||` default) to a nullable string column:
an absent property is an `undefined` bind parameter, on which mysql2 throws. -/
def nullableStrProp (v : Option Json) : Option (Option String) :=
  match v with
  | some (.str s) => some (some s)
  | some .null => some none
  | _ => none

/-- A property that must be a number (it feeds `new Date(x * 1000)`). -/
def numProp (v : Option Json) : Option Int :=
  match v with
  | some (.num n) => some n
  | _ => none

/-- A JavaScript `x ? JSON.stringify(x) : null` expression. -/
def stringifyIfTruthy (v : Option Json) : Option String :=
  match v with
  | some j => if j.truthy then some j.stringify else none
  | none => none

namespace WebhookController

/-- The handler result objects (`status` plus the id echoed back). -/
structure HandlerResult where
  status : String
  conversationId : Option String := none
  messageId : Option String := none
  eventType : Option String := none
deriving Repr, DecidableEq

/-- A project row as `handleConversationCreated` builds it for `createProject`:
description defaulted with `|| ''`, external id taken from `project.id`. -/
def buildProjectRow (p : Json) (nm : String) : Option ProjectRow := do
  let desc ← strColWithDefault (p.get "description") ""
  let cpid ← nullableStrProp (p.get "id")
  some { name := nm, description := desc, is_starred := false, chatgpt_project_id := cpid }

/-- The `if (project) { ... }` block of `handleConversationCreated`: look the
project up by name and create it when absent.  The `Bool` is false when the
block threw. -/
def ensureProject (project : Option Json) (st : DBState) : Bool × DBState :=
  match project with
  | none => (true, st)
  | some p =>
    if p.truthy then
      match p.get "name" with
      | some (.str nm) =>
        (match DatabaseService.getProject st nm with
         | some _ => (true, st)
         | none =>
           match buildProjectRow p nm with
           | some row => (true, DatabaseService.createProject st row)
           | none => (false, st))
      | _ => (false, st)
    else (true, st)

/-- The conversation row `handleConversationCreated` inserts: title and model
defaulted with `||`, timestamps via `new Date(x * 1000)`, project linkage from
`project ? project.id : null`. -/
def buildConversationRow (conversation project : Option Json) :
    Option (String × ConversationRow) := do
  let c ← conversation
  let cid ← (c.get "id").bind asStr
  let title ← strColWithDefault (c.get "title") "Untitled"
  let model ← strColWithDefault (c.get "model") "gpt-4"
  let ct ← numProp (c.get "create_time")
  let ut ← numProp (c.get "update_time")
  let pid ← if jsTruthy project then nullableStrProp (project.bind (fun p => p.get "id"))
            else some none
  let tid ← strOrNullCol (c.get "openai_thread_id")
  some (cid, { conversation_id := cid, title := title, model := model,
               create_time := ct * 1000, update_time := ut * 1000,
               project_id := pid, openai_thread_id := tid })

/-- Model of `handleConversationCreated`. -/
def handleConversationCreated (payload : Json) (st : DBState) :
    Option HandlerResult × DBState :=
  let conversation := payload.get "conversation"
  let project := payload.get "project"
  match ensureProject project st with
  | (false, st1) => (none, st1)
  | (true, st1) =>
    match buildConversationRow conversation project with
    | none => (none, st1)
    | some (cid, row) =>
      (some { status := "conversation_created", conversationId := some cid },
       DatabaseService.insertConversation st1 row)

/-- The conversation row `handleConversationUpdated` inserts (project linkage
comes from `conversation.project_id || null` here). -/
def buildConversationRowUpd (conversation : Option Json) :
    Option (String × ConversationRow) := do
  let c ← conversation
  let cid ← (c.get "id").bind asStr
  let title ← strColWithDefault (c.get "title") "Untitled"
  let model ← strColWithDefault (c.get "model") "gpt-4"
  let ct ← numProp (c.get "create_time")
  let ut ← numProp (c.get "update_time")
  let pid ← strOrNullCol (c.get "project_id")
  let tid ← strOrNullCol (c.get "openai_thread_id")
  some (cid, { conversation_id := cid, title := title, model := model,
               create_time := ct * 1000, update_time := ut * 1000,
               project_id := pid, openai_thread_id := tid })

/-- Model of `handleConversationUpdated`. -/
def handleConversationUpdated (payload : Json) (st : DBState) :
    Option HandlerResult × DBState :=
  match buildConversationRowUpd (payload.get "conversation") with
  | none => (none, st)
  | some (cid, row) =>
    (some { status := "conversation_updated", conversationId := some cid },
     DatabaseService.insertConversation st row)

/-- The `if (conversation) { ... }` block of `handleMessageCreated`: when the
conversation is truthy but not stored yet, synthesize it through
`handleConversationCreated(\x7bconversation\x7d)`.  An absent or falsy
conversation skips the block. -/
def ensureConversation (conversation : Option Json) (st : DBState) : Bool × DBState :=
  match conversation with
  | some c =>
    if c.truthy then
      match (c.get "id").bind asStr with
      | some cid =>
        (match DatabaseService.getConversation st cid with
         | some _ => (true, st)
         | none =>
           match handleConversationCreated (Json.obj [("conversation", c)]) st with
           | (some _, st1) => (true, st1)
           | (none, st1) => (false, st1))
      | none => (false, st)
    else (true, st)
  | none => (true, st)

/-- The message row `handleMessageCreated` inserts: `conversation_id` falls
back from `message.conversation_id` to `conversation?.id`; content, parts and
children go through `x ? JSON.stringify(x) : null`. -/
def buildMessageRow (message conversation : Option Json) :
    Option (String × MessageRow) := do
  let m ← message
  let mid ← (m.get "id").bind asStr
  let convId ← (jsOrOpt (m.get "conversation_id") (optChain conversation "id")).bind asStr
  let role ← strColWithDefault (m.get "role") "user"
  let ct ← numProp (m.get "create_time")
  let parent ← strOrNullCol (m.get "parent")
  let authorName ← strOrNullCol (optChain (m.get "author") "name")
  some (mid, { id := mid, conversation_id := convId, role := role,
               content := stringifyIfTruthy (m.get "content"),
               parts := stringifyIfTruthy (m.get "parts"),
               create_time := ct * 1000, parent := parent,
               children := stringifyIfTruthy (m.get "children"),
               author_name := authorName })

/-- Model of `handleMessageCreated`. -/
def handleMessageCreated (payload : Json) (st : DBState) :
    Option HandlerResult × DBState :=
  let message := payload.get "message"
  let conversation := payload.get "conversation"
  match ensureConversation conversation st with
  | (false, st1) => (none, st1)
  | (true, st1) =>
    match buildMessageRow message conversation with
    | none => (none, st1)
    | some (mid, row) =>
      (some { status := "message_created", messageId := some mid },
       DatabaseService.insertMessage st1 row)

/-- The message row `handleMessageUpdated` inserts (`conversation_id` is taken
directly from the message, with no conversation fallback). -/
def buildMessageRowUpd (message : Option Json) : Option (String × MessageRow) := do
  let m ← message
  let mid ← (m.get "id").bind asStr
  let convId ← (m.get "conversation_id").bind asStr
  let role ← strColWithDefault (m.get "role") "user"
  let ct ← numProp (m.get "create_time")
  let parent ← strOrNullCol (m.get "parent")
  let authorName ← strOrNullCol (optChain (m.get "author") "name")
  some (mid, { id := mid, conversation_id := convId, role := role,
               content := stringifyIfTruthy (m.get "content"),
               parts := stringifyIfTruthy (m.get "parts"),
               create_time := ct * 1000, parent := parent,
               children := stringifyIfTruthy (m.get "children"),
               author_name := authorName })

/-- Model of `handleMessageUpdated`. -/
def handleMessageUpdated (payload : Json) (st : DBState) :
    Option HandlerResult × DBState :=
  match buildMessageRowUpd (payload.get "message") with
  | none => (none, st)
  | some (mid, row) =>
    (some { status := "message_updated", messageId := some mid },
     DatabaseService.insertMessage st row)

/-- The controller's possible HTTP responses; the ISO timestamp field every
response also carries is wall-clock output and is not modelled. -/
inductive WebhookResponse where
  | unauthorized (error : String)
  | badRequest (error : String) (details : List (String × String))
  | ok (status : String) (eventType : String) (result : HandlerResult)
  | serverError (error : String)
deriving Repr, DecidableEq

def WebhookResponse.statusCode : WebhookResponse → Nat
  | .unauthorized _ => 401
  | .badRequest _ _ => 400
  | .ok _ _ _ => 200
  | .serverError _ => 500

/-- The `switch (eventType)` block of `handleChatGPTWebhook`: unknown tags
produce an `ignored` result without touching the store. -/
def dispatchEvent (eventType : String) (payload : Json) (st : DBState) :
    Option HandlerResult × DBState :=
  if eventType = "conversation.created" then handleConversationCreated payload st
  else if eventType = "conversation.updated" then handleConversationUpdated payload st
  else if eventType = "message.created" then handleMessageCreated payload st
  else if eventType = "message.updated" then handleMessageUpdated payload st
  else (some { status := "ignored", eventType := some eventType }, st)

/-- Model of `handleChatGPTWebhook`: validate, dispatch on the event-type tag,
wrap the outcome (a thrown handler error becomes HTTP 500). -/
def handleChatGPTWebhook (eventType : String) (payload : Json) (st : DBState) :
    WebhookResponse × DBState :=
  let validation := validateWebhookPayload payload
  if validation.isValid = false then
    (.badRequest "Invalid payload" validation.errors, st)
  else
    match dispatchEvent eventType payload st with
    | (some result, st1) => (.ok "success" eventType result, st1)
    | (none, st1) => (.serverError "Internal server error", st1)

end WebhookController

/-- The POST /webhook/chatgpt route: signature middleware, then the controller
with the event type drawn from `req.headers['x-event-type'] || 'unknown'`. -/
def webhookChatgptRoute (signature timestamp eventTypeHeader : Option String)
    (body : Json) (now : Int) (secret : String) (st : DBState) :
    WebhookController.WebhookResponse × DBState :=
  match validateWebhookSignature signature timestamp body now secret with
  | .missingCreds => (.unauthorized "Missing signature or timestamp", st)
  | .tooOld => (.unauthorized "Request too old", st)
  | .invalidSignature => (.unauthorized "Invalid signature", st)
  | .sigValidationError => (.serverError "Signature validation failed", st)
  | .pass =>
    let eventType :=
      match eventTypeHeader with
      | some e => if e = "" then "unknown" else e
      | none => "unknown"
    WebhookController.handleChatGPTWebhook eventType body st

/-! ## `ChatBETODatabaseService.insertMessage` (src/services/chatbeto-database.js)

The corrected insert function with its up-front input validation.  A thrown
error is an `Except.error` carrying the message; the stored state is returned
alongside so that a validation throw demonstrably leaves it untouched.  The
nondeterministic `uuidv4()` and `Date.now()` are passed in as `freshId` and
`nowSec`. -/

structure CBMessageRow where
  id : String
  conversation_id : String
  role : String
  content : String
  content_type : String
  author_name : Option String
  parent_message_id : Option String
  created_at_timestamp_ms : Int
  status : String
deriving Repr, DecidableEq

/-- The `options` object of `insertMessage`; absent fields are `none`. -/
structure CBOptions where
  id : Option String := none
  contentType : Option String := none
  authorName : Option String := none
  parentMessageId : Option String := none
  createTime : Option Int := none
deriving Repr, DecidableEq

namespace ChatBETODatabaseService

/-- JavaScript `x || y` on the optional string fields of `options`. -/
def optDefault (v : Option String) (dflt : String) : String :=
  match v with
  | some s => if s = "" then dflt else s
  | none => dflt

/-- JavaScript `x || null` on the optional string fields of `options`. -/
def optOrNull (v : Option String) : Option String :=
  match v with
  | some s => if s = "" then none else some s
  | none => none

/-- Model of `ChatBETODatabaseService.insertMessage`: validate conversationId,
role and content before any SQL; then upsert keyed by the message id, with the
`ON DUPLICATE KEY UPDATE` clause covering role, content, content_type and
author_name only. -/
def insertMessage (conversationId role content : Json) (options : CBOptions)
    (freshId : String) (nowSec : Int) (st : List CBMessageRow) :
    List CBMessageRow × Except String String :=
  match conversationId with
  | .str cid =>
    if cid = "" then (st, .error "conversationId es requerido y debe ser un string")
    else
      match role with
      | .str r =>
        if r = "user" ∨ r = "assistant" ∨ r = "system" ∨ r = "tool" then
          match content with
          | .str cont =>
            if cont = "" then (st, .error "content es requerido y debe ser un string no vacío")
            else
              let cleanContent := jsTrim cont
              if cleanContent = "" then
                (st, .error "El contenido del mensaje no puede estar vacío")
              else
                let messageId := optDefault options.id freshId
                let createTime :=
                  match options.createTime with
                  | some t => if t = 0 then nowSec else t
                  | none => nowSec
                let contentType := optDefault options.contentType "text"
                let authorName := optOrNull options.authorName
                let row : CBMessageRow :=
                  { id := messageId, conversation_id := cid, role := r,
                    content := cleanContent, content_type := contentType,
                    author_name := authorName,
                    parent_message_id := optOrNull options.parentMessageId,
                    created_at_timestamp_ms := createTime * 1000,
                    status := "finished_successfully" }
                if st.any (fun x => x.id = messageId) then
                  (st.map (fun x =>
                     if x.id = messageId then
                       { x with role := r, content := cleanContent,
                                content_type := contentType, author_name := authorName }
                     else x),
                   .ok messageId)
                else (st ++ [row], .ok messageId)
          | _ => (st, .error "content es requerido y debe ser un string no vacío")
        else (st, .error "role debe ser uno de: user, assistant, system, tool")
      | _ => (st, .error "role debe ser uno de: user, assistant, system, tool")
  | _ => (st, .error "conversationId es requerido y debe ser un string")

end ChatBETODatabaseService

/-! ## Concrete example inputs used by the claim theorems and witnesses -/

/-- The webhook secret the test environment configures. -/
def exSecret : String := "test-webhook-secret"

/-- A raw request body carrying a space that `JSON.stringify` would not emit. -/
def rawBodyEx : String := "\x7b\"a\": 1\x7d"

/-- The value `express.json()` parses `rawBodyEx` into. -/
def bodyEx : Json := Json.obj [("a", Json.num 1)]

/-- A signature computed, per the spec, over the exact raw body bytes. -/
def sigOverRawEx : String := "sha256=" ++ hmacSha256Hex exSecret ("1700000000." ++ rawBodyEx)

/-- A signature computed over the re-serialized parsed body, as the code does. -/
def sigOverParsedEx : String :=
  "sha256=" ++ hmacSha256Hex exSecret ("1700000000." ++ bodyEx.stringify)

/-- The message of the end-to-end scenario of claim C5. -/
def msgC5 : Json :=
  Json.obj [("id", Json.str "m1"), ("conversation_id", Json.str "c1"),
            ("role", Json.str "user"), ("content", Json.str "hi"),
            ("create_time", Json.num 1700000000)]

/-- The conversation of the end-to-end scenario of claim C5. -/
def convC5 : Json :=
  Json.obj [("id", Json.str "c1"), ("title", Json.str "T"),
            ("create_time", Json.num 1700000000), ("update_time", Json.num 1700000000)]

/-- The envelope of the end-to-end scenario of claim C5. -/
def payloadC5 : Json := Json.obj [("message", msgC5), ("conversation", convC5)]

/-- A valid (per the code) signature for `payloadC5` at timestamp 1700000000. -/
def sigC5 : String := "sha256=" ++ hmacSha256Hex exSecret ("1700000000." ++ payloadC5.stringify)

/-- A payload whose conversation lacks the required `id`, with no message. -/
def payloadMissingId : Json :=
  Json.obj [("conversation", Json.obj [("title", Json.str "x"),
            ("create_time", Json.num 1), ("update_time", Json.num 2)])]

/-- A schema-valid `message.created` payload whose message carries no content. -/
def payloadNoContent : Json :=
  Json.obj [("message", Json.obj [("id", Json.str "m2"),
            ("conversation_id", Json.str "c1"), ("role", Json.str "user"),
            ("create_time", Json.num 1700000000)])]

/-- A store already holding conversation c1. -/
def stWithC1 : DBState :=
  { projects := [], messages := [],
    conversations := [{ conversation_id := "c1", title := "T", model := "gpt-4",
                        create_time := 0, update_time := 0,
                        project_id := none, openai_thread_id := none }] }

/-- First delivery of a message record (claim C3). -/
def msgRowA : MessageRow :=
  { id := "m", conversation_id := "c", role := "user", content := some "a",
    parts := none, create_time := 1000, parent := none, children := none,
    author_name := none }

/-- Second delivery of the same message id with different fields (claim C3). -/
def msgRowB : MessageRow :=
  { id := "m", conversation_id := "cX", role := "assistant", content := some "b",
    parts := some "[\"b\"]", create_time := 2000, parent := some "p",
    children := none, author_name := some "A" }

/-- Claim C10's wording `conversationId is not a non-empty string`. -/
def isBadConversationId (j : Json) : Bool :=
  match j with
  | .str s => s = ""
  | _ => true

/-- Claim C10's wording `role is outside the closed set`. -/
def isBadRole (j : Json) : Bool :=
  match j with
  | .str s => if s = "user" ∨ s = "assistant" ∨ s = "system" ∨ s = "tool" then false else true
  | _ => true

/-- Claim C10's wording `content is not a string or trims to the empty string`. -/
def isBadContent (j : Json) : Bool :=
  match j with
  | .str s => jsTrim s = ""
  | _ => true

/-- Claim C9's stored-message invariant: the stored content (which
`insertMessage` stores already normalized, as `content.trim`) is non-empty,
and the role lies in the closed set. -/
def cbRowInvariant (r : CBMessageRow) : Prop :=
  r.content ≠ "" ∧
  (r.role = "user" ∨ r.role = "assistant" ∨ r.role = "system" ∨ r.role = "tool")

/-! # Theorems

First the validation of the crypto model against published test vectors, then
helper lemmas, then one theorem per claim (with witnesses and counterexamples).
-/

/-- Validation of the SHA-256 model against the FIPS 180-4 test vector for "abc". -/
theorem sha256_test_vector_abc :
    bytesToHex (sha256 (strBytes "abc")) =
      "ba7816bf8f01cfea414140de5dae2223b00361a396177a9cb410ff61f20015ad" := rfl

/-- Validation of the HMAC model against RFC 4231 test case 1. -/
theorem hmac_test_vector_rfc4231 :
    bytesToHex (hmacSha256 (List.replicate 20 0x0b) (strBytes "Hi There")) =
      "b0344c61d8db38535ca8afceaf0bf12b881dc200c9833da726e9376c2e32cff7" := rfl

/-! ## Helper lemmas on the upsert layer -/

/-- A list with no row matching a key reports no duplicate. -/
theorem any_id_eq_false (l : List MessageRow) (key : String)
    (h : ∀ r ∈ l, r.id ≠ key) : (l.any (fun r => r.id = key)) = false := by
  rw [List.any_eq_false]
  intro r hr
  simpa using h r hr

/-- Updating rows by a key none of them has leaves a list unchanged. -/
theorem map_update_id_fresh (l : List MessageRow) (key : String)
    (f : MessageRow → MessageRow) (h : ∀ r ∈ l, r.id ≠ key) :
    (l.map (fun r => if r.id = key then f r else r)) = l := by
  induction l with
  | nil => rfl
  | cons a t ih =>
    simp only [List.map_cons, List.cons.injEq]
    constructor
    · rw [if_neg]
      exact fun hc => h a (by simp) hc
    · exact ih (fun r hr => h r (by simp [hr]))

/-! ## Helper lemmas on digests and hex coding -/

/-- A SHA-256 digest is 32 bytes. -/
theorem sha256_length (msg : List Nat) : (sha256 msg).length = 32 := by
  simp [sha256, be32]

/-- Every byte of a SHA-256 digest is below 256. -/
theorem sha256_bytes_lt (msg : List Nat) : ∀ b ∈ sha256 msg, b < 256 := by
  intro b hb
  simp [sha256, be32] at hb
  omega

/-- An HMAC-SHA256 digest is 32 bytes. -/
theorem hmacSha256_length (key msg : List Nat) : (hmacSha256 key msg).length = 32 :=
  sha256_length _

/-- Every byte of an HMAC-SHA256 digest is below 256. -/
theorem hmacSha256_bytes_lt (key msg : List Nat) : ∀ b ∈ hmacSha256 key msg, b < 256 :=
  sha256_bytes_lt _

/-- Each hex digit character decodes back to its value. -/
theorem hexVal_hexDigitChar : ∀ d < 16, hexVal (hexDigitChar d) = some d := by decide

/-- Hex decoding inverts hex encoding on genuine byte lists. -/
theorem hexDecode_bytesToHex (bs : List Nat) (h : ∀ b ∈ bs, b < 256) :
    hexDecode (bytesToHex bs) = bs := by
  show hexDecodeGo (bs.flatMap (fun b => [hexDigitChar (b / 16 % 16), hexDigitChar (b % 16)])) = bs
  induction bs with
  | nil => rfl
  | cons b t ih =>
    have hb : b < 256 := h b (by simp)
    simp only [List.flatMap_cons, List.cons_append, List.nil_append]
    rw [show hexDecodeGo (hexDigitChar (b / 16 % 16) :: hexDigitChar (b % 16) ::
          t.flatMap (fun b => [hexDigitChar (b / 16 % 16), hexDigitChar (b % 16)])) =
        match hexVal (hexDigitChar (b / 16 % 16)), hexVal (hexDigitChar (b % 16)) with
        | some hi, some lo => (hi * 16 + lo) ::
            hexDecodeGo (t.flatMap (fun b => [hexDigitChar (b / 16 % 16), hexDigitChar (b % 16)]))
        | _, _ => [] from rfl]
    rw [hexVal_hexDigitChar (b / 16 % 16) (by omega), hexVal_hexDigitChar (b % 16) (by omega)]
    rw [ih (fun x hx => h x (by simp [hx]))]
    show (b / 16 % 16 * 16 + b % 16) :: t = b :: t
    have h1 : b / 16 < 16 := (Nat.div_lt_iff_lt_mul (by norm_num)).mpr (by omega)
    rw [Nat.mod_eq_of_lt h1]
    have h2 : b / 16 * 16 + b % 16 = b := by omega
    rw [h2]

/-- The expected signature the middleware computes hex-decodes to 32 bytes. -/
theorem hexDecode_hmacSha256Hex_length (secret msg : String) :
    (hexDecode (hmacSha256Hex secret msg)).length = 32 := by
  unfold hmacSha256Hex
  rw [hexDecode_bytesToHex _ (hmacSha256_bytes_lt _ _)]
  exact hmacSha256_length _ _

/-! ## Claim C3 -/

/-- C3 counterexample: delivering `msgRowA` then `msgRowB` (same id `m`) leaves
the stored row with `create_time = 2000` — the SECOND delivery's value — because
the `ON DUPLICATE KEY UPDATE` clause of `insertMessage` lists `create_time`.
The claim states the stored `create_time` stays at the first delivery's 1000. -/
theorem C3_counterexample_create_time_overwritten :
    ((DatabaseService.insertMessage (DatabaseService.insertMessage emptyDB msgRowA)
        msgRowB).messages.map MessageRow.create_time) = [2000] ∧
    msgRowA.create_time = 1000 ∧ (2000 : Int) ≠ 1000 := by
  refine ⟨by decide, by decide, by decide⟩

/-- C3 (amended): on a duplicate delivery of the same message id, role,
content, parts, parent, children, author name AND `create_time` all take the
second delivery's values; only the key `id` and `conversation_id` (absent from
the update clause) keep the first delivery's. -/
theorem insertMessage_fresh (st : DBState) (d : MessageRow)
    (h : ∀ r ∈ st.messages, r.id ≠ d.id) :
    DatabaseService.insertMessage st d = { st with messages := st.messages ++ [d] } := by
  have hb : ¬ ((st.messages.any fun r => decide (r.id = d.id)) = true) := by
    simp [any_id_eq_false st.messages d.id h]
  unfold DatabaseService.insertMessage
  rw [if_neg hb]

theorem insertMessage_dup (st : DBState) (d : MessageRow)
    (h : (st.messages.any fun r => decide (r.id = d.id)) = true) :
    DatabaseService.insertMessage st d =
      { st with messages := st.messages.map (fun r =>
          if r.id = d.id then
            { r with role := d.role, content := d.content, parts := d.parts,
                     create_time := d.create_time, parent := d.parent,
                     children := d.children, author_name := d.author_name }
          else r) } := by
  unfold DatabaseService.insertMessage
  rw [if_pos h]

theorem C3_upsert_message_second_delivery_wins (st : DBState) (d1 d2 : MessageRow)
    (hid : d1.id = d2.id) (hfresh : ∀ r ∈ st.messages, r.id ≠ d1.id) :
    (DatabaseService.insertMessage (DatabaseService.insertMessage st d1) d2).messages
      = st.messages ++ [{ d2 with conversation_id := d1.conversation_id }] := by
  have hfresh2 : ∀ r ∈ st.messages, r.id ≠ d2.id := fun r hr => hid ▸ hfresh r hr
  rw [insertMessage_fresh st d1 hfresh]
  rw [insertMessage_dup _ d2 (by simp [List.any_append, hid])]
  simp only [List.map_append, List.map_cons, List.map_nil]
  rw [map_update_id_fresh st.messages d2.id _ hfresh2]
  rw [if_pos hid, hid]

/-- C3 witness: the amended upsert law applied to the concrete pair of
deliveries `msgRowA`, `msgRowB` on an empty store. -/
theorem C3_upsert_message_second_delivery_wins_witness :
    (DatabaseService.insertMessage (DatabaseService.insertMessage emptyDB msgRowA)
        msgRowB).messages = [{ msgRowB with conversation_id := "c" }] :=
  C3_upsert_message_second_delivery_wins emptyDB msgRowA msgRowB rfl (by simp [emptyDB])

/-! ## Helper lemmas: what passing validation says about each field -/

/-- A passing required-string field is a non-empty string. -/
theorem reqNonEmptyStr_eq_nil {path : String} {v : Option Json}
    (h : reqNonEmptyStr path v = []) : ∃ s, v = some (.str s) ∧ s ≠ "" := by
  rcases v with _ | j
  · simp [reqNonEmptyStr] at h
  · cases j with
    | str s =>
      by_cases hs : s = ""
      · simp [reqNonEmptyStr, hs] at h
      · exact ⟨s, rfl, hs⟩
    | null => simp [reqNonEmptyStr] at h
    | bool b => simp [reqNonEmptyStr] at h
    | num n => simp [reqNonEmptyStr] at h
    | arr xs => simp [reqNonEmptyStr] at h
    | obj fs => simp [reqNonEmptyStr] at h

/-- A passing optional-string field can be bound to a defaulted string column. -/
theorem optStrField_nil_strCol {ae : Bool} {path : String} {v : Option Json}
    (h : optStrField ae false path v = []) (d : String) :
    ∃ t, strColWithDefault v d = some t := by
  rcases v with _ | j
  · exact ⟨d, rfl⟩
  · cases j with
    | str s =>
      by_cases hs : s = ""
      · exact ⟨d, by simp [strColWithDefault, Json.truthy, hs]⟩
      · exact ⟨s, by simp [strColWithDefault, Json.truthy, hs, asStr]⟩
    | null => simp [optStrField] at h
    | bool b => simp [optStrField] at h
    | num n => simp [optStrField] at h
    | arr xs => simp [optStrField] at h
    | obj fs => simp [optStrField] at h

/-- A passing nullable optional-string field can be bound to a nullable column. -/
theorem optStrField_nil_strOrNull {ae : Bool} {path : String} {v : Option Json}
    (h : optStrField ae true path v = []) :
    ∃ o, strOrNullCol v = some o := by
  rcases v with _ | j
  · exact ⟨none, rfl⟩
  · cases j with
    | str s =>
      by_cases hs : s = ""
      · exact ⟨none, by simp [strOrNullCol, Json.truthy, hs]⟩
      · exact ⟨some s, by simp [strOrNullCol, Json.truthy, hs, asStr]⟩
    | null => exact ⟨none, by simp [strOrNullCol, Json.truthy]⟩
    | bool b => simp [optStrField] at h
    | num n => simp [optStrField] at h
    | arr xs => simp [optStrField] at h
    | obj fs => simp [optStrField] at h

/-- A passing required-number field is a number. -/
theorem reqNumField_nil {path : String} {v : Option Json}
    (h : reqNumField path v = []) : ∃ n, v = some (.num n) := by
  rcases v with _ | j
  · simp [reqNumField] at h
  · cases j with
    | num n => exact ⟨n, rfl⟩
    | null => simp [reqNumField] at h
    | bool b => simp [reqNumField] at h
    | str s => simp [reqNumField] at h
    | arr xs => simp [reqNumField] at h
    | obj fs => simp [reqNumField] at h

/-- A passing role field is one of the three schema roles. -/
theorem roleField_nil {path : String} {v : Option Json}
    (h : roleField path v = []) :
    ∃ s, v = some (.str s) ∧ (s = "user" ∨ s = "assistant" ∨ s = "system") := by
  rcases v with _ | j
  · simp [roleField] at h
  · cases j with
    | str s =>
      by_cases hs : s = "user" ∨ s = "assistant" ∨ s = "system"
      · exact ⟨s, rfl, hs⟩
      · simp only [roleField, if_neg hs] at h
        simp at h
    | null => simp [roleField] at h
    | bool b => simp [roleField] at h
    | num n => simp [roleField] at h
    | arr xs => simp [roleField] at h
    | obj fs => simp [roleField] at h

/-- A passing role field can be bound to the role column, staying in the set. -/
theorem roleField_nil_strCol {path : String} {v : Option Json}
    (h : roleField path v = []) :
    ∃ s, strColWithDefault v "user" = some s ∧
      (s = "user" ∨ s = "assistant" ∨ s = "system") := by
  obtain ⟨s, hv, hset⟩ := roleField_nil h
  refine ⟨s, ?_, hset⟩
  have hs : s ≠ "" := by rcases hset with h | h | h <;> simp [h]
  rw [hv]
  simp [strColWithDefault, Json.truthy, hs, asStr]

/-- A passing author field gives a bindable author name. -/
theorem authorField_nil_strOrNull {path : String} {v : Option Json}
    (h : authorField path v = []) :
    ∃ o, strOrNullCol (optChain v "name") = some o := by
  rcases v with _ | j
  · exact ⟨none, rfl⟩
  · cases j with
    | obj fs =>
      have hname : optStrField false true (path ++ ".name") (lookupField fs "name") = [] := by
        have := List.append_eq_nil.mp (by simpa [authorField] using h)
        exact this.1
      have := optStrField_nil_strOrNull hname
      simpa [optChain, Json.get] using this
    | null => exact ⟨none, rfl⟩
    | bool b => simp [authorField] at h
    | num n => simp [authorField] at h
    | str s => simp [authorField] at h
    | arr xs => simp [authorField] at h

/-- A conversation passing `conversationSchema` passes every field check. -/
theorem conversationErrors_nil {p : String} {c : Json} (h : conversationErrors p c = []) :
    reqNonEmptyStr (p ++ ".id") (c.get "id") = [] ∧
    optStrField true false (p ++ ".title") (c.get "title") = [] ∧
    optStrField false false (p ++ ".model") (c.get "model") = [] ∧
    reqNumField (p ++ ".create_time") (c.get "create_time") = [] ∧
    reqNumField (p ++ ".update_time") (c.get "update_time") = [] ∧
    optStrField false true (p ++ ".project_id") (c.get "project_id") = [] ∧
    optStrField false true (p ++ ".openai_thread_id") (c.get "openai_thread_id") = [] := by
  cases c with
  | obj fs =>
    simp only [conversationErrors, List.append_eq_nil] at h
    obtain ⟨⟨⟨⟨⟨⟨h1, h2⟩, h3⟩, h4⟩, h5⟩, h6⟩, h7⟩ := h
    exact ⟨h1, h2, h3, h4, h5, h6, h7⟩
  | null => simp [conversationErrors] at h
  | bool b => simp [conversationErrors] at h
  | num n => simp [conversationErrors] at h
  | str s => simp [conversationErrors] at h
  | arr xs => simp [conversationErrors] at h

/-- A message passing `messageSchema` passes every field check. -/
theorem messageErrors_nil {p : String} {m : Json} (h : messageErrors p m = []) :
    reqNonEmptyStr (p ++ ".id") (m.get "id") = [] ∧
    reqNonEmptyStr (p ++ ".conversation_id") (m.get "conversation_id") = [] ∧
    roleField (p ++ ".role") (m.get "role") = [] ∧
    reqNumField (p ++ ".create_time") (m.get "create_time") = [] ∧
    optStrField false true (p ++ ".parent") (m.get "parent") = [] ∧
    authorField (p ++ ".author") (m.get "author") = [] := by
  cases m with
  | obj fs =>
    simp only [messageErrors, List.append_eq_nil] at h
    obtain ⟨⟨⟨⟨⟨⟨⟨⟨h1, h2⟩, h3⟩, h4⟩, h5⟩, h6⟩, h7⟩, h8⟩, h9⟩ := h
    exact ⟨h1, h2, h3, h6, h7, h9⟩
  | null => simp [messageErrors] at h
  | bool b => simp [messageErrors] at h
  | num n => simp [messageErrors] at h
  | str s => simp [messageErrors] at h
  | arr xs => simp [messageErrors] at h

/-- In a passing envelope, a present conversation sub-object passes its schema. -/
theorem webhookPayloadErrors_nil_conv {payload c : Json}
    (h : webhookPayloadErrors payload = [])
    (hc : payload.get "conversation" = some c) :
    conversationErrors "conversation" c = [] := by
  cases payload with
  | obj fs =>
    simp only [webhookPayloadErrors] at h
    rw [hc] at h
    rcases hm : (Json.obj fs).get "message" with _ | m <;> rw [hm] at h <;>
      simp only [List.append_eq_nil] at h <;> exact h.1.1.1.1
  | null => simp [Json.get] at hc
  | bool b => simp [Json.get] at hc
  | num n => simp [Json.get] at hc
  | str s => simp [Json.get] at hc
  | arr xs => simp [Json.get] at hc

/-- In a passing envelope, a present message sub-object passes its schema. -/
theorem webhookPayloadErrors_nil_msg {payload m : Json}
    (h : webhookPayloadErrors payload = [])
    (hm : payload.get "message" = some m) :
    messageErrors "message" m = [] := by
  cases payload with
  | obj fs =>
    simp only [webhookPayloadErrors] at h
    rw [hm] at h
    rcases hc : (Json.obj fs).get "conversation" with _ | c <;> rw [hc] at h <;>
      simp only [List.append_eq_nil] at h <;> exact h.1.1.1.2
  | null => simp [Json.get] at hm
  | bool b => simp [Json.get] at hm
  | num n => simp [Json.get] at hm
  | str s => simp [Json.get] at hm
  | arr xs => simp [Json.get] at hm

/-! ## Helper lemmas: state preservation and fresh inserts -/

/-- A list with no conversation row matching a key reports no duplicate. -/
theorem any_convid_eq_false (l : List ConversationRow) (key : String)
    (h : ∀ r ∈ l, r.conversation_id ≠ key) :
    (l.any (fun r => r.conversation_id = key)) = false := by
  rw [List.any_eq_false]
  intro r hr
  simpa using h r hr

/-- `insertConversation` on a fresh key appends the row. -/
theorem insertConversation_fresh (st : DBState) (d : ConversationRow)
    (h : ∀ r ∈ st.conversations, r.conversation_id ≠ d.conversation_id) :
    DatabaseService.insertConversation st d =
      { st with conversations := st.conversations ++ [d] } := by
  have hb : ¬ ((st.conversations.any fun r =>
      decide (r.conversation_id = d.conversation_id)) = true) := by
    simp [any_convid_eq_false st.conversations d.conversation_id h]
  unfold DatabaseService.insertConversation
  rw [if_neg hb]

/-- `insertConversation` never touches the messages table. -/
theorem insertConversation_messages (st : DBState) (d : ConversationRow) :
    (DatabaseService.insertConversation st d).messages = st.messages := by
  unfold DatabaseService.insertConversation
  split <;> rfl

/-- `createProject` never touches the conversations table. -/
theorem createProject_conversations (st : DBState) (d : ProjectRow) :
    (DatabaseService.createProject st d).conversations = st.conversations := by
  unfold DatabaseService.createProject
  split <;> rfl

/-- `createProject` never touches the messages table. -/
theorem createProject_messages (st : DBState) (d : ProjectRow) :
    (DatabaseService.createProject st d).messages = st.messages := by
  unfold DatabaseService.createProject
  split <;> rfl

/-- The project-ensuring block never touches the conversations table. -/
theorem ensureProject_conversations (pr : Option Json) (st : DBState) :
    (WebhookController.ensureProject pr st).2.conversations = st.conversations := by
  unfold WebhookController.ensureProject
  repeat' split
  all_goals first
    | rfl
    | exact createProject_conversations st _

/-- The project-ensuring block never touches the messages table. -/
theorem ensureProject_messages (pr : Option Json) (st : DBState) :
    (WebhookController.ensureProject pr st).2.messages = st.messages := by
  unfold WebhookController.ensureProject
  repeat' split
  all_goals first
    | rfl
    | exact createProject_messages st _

/-- `handleConversationCreated` never touches the messages table. -/
theorem handleConversationCreated_messages (p : Json) (st : DBState) :
    (WebhookController.handleConversationCreated p st).2.messages = st.messages := by
  simp only [WebhookController.handleConversationCreated]
  split
  · rename_i st1 heq
    have h1 := ensureProject_messages (p.get "project") st
    rw [heq] at h1
    exact h1
  · rename_i st1 heq
    have h1 := ensureProject_messages (p.get "project") st
    rw [heq] at h1
    split
    · exact h1
    · rename_i cid row heq2
      exact (insertConversation_messages st1 row).trans h1

/-- The conversation-ensuring block never touches the messages table. -/
theorem ensureConversation_messages (conv : Option Json) (st : DBState) :
    (WebhookController.ensureConversation conv st).2.messages = st.messages := by
  rcases conv with _ | c
  · rfl
  · simp only [WebhookController.ensureConversation]
    split
    · split
      · split
        · rfl
        · split
          · rename_i val st1 heq
            have h1 := handleConversationCreated_messages (Json.obj [("conversation", c)]) st
            rw [heq] at h1
            exact h1
          · rename_i st1 heq
            have h1 := handleConversationCreated_messages (Json.obj [("conversation", c)]) st
            rw [heq] at h1
            exact h1
      · rfl
    · rfl

/-! ## Helper lemmas: row construction succeeds on validated payloads -/

/-- A conversation passing its schema yields a row for `insertConversation`
when no project object is in play. -/
theorem buildConversationRow_of_valid (c : Json) (cid : String)
    (h : conversationErrors "conversation" c = [])
    (hcid : c.get "id" = some (.str cid)) :
    ∃ crow, WebhookController.buildConversationRow (some c) none = some (cid, crow) ∧
      crow.conversation_id = cid := by
  obtain ⟨_, h2, h3, h4, h5, _, h7⟩ := conversationErrors_nil h
  obtain ⟨t, ht⟩ := optStrField_nil_strCol h2 "Untitled"
  obtain ⟨mo, hmo⟩ := optStrField_nil_strCol h3 "gpt-4"
  obtain ⟨ct, hct⟩ := reqNumField_nil h4
  obtain ⟨ut, hut⟩ := reqNumField_nil h5
  obtain ⟨tid, htid⟩ := optStrField_nil_strOrNull h7
  refine ⟨{ conversation_id := cid, title := t, model := mo, create_time := ct * 1000,
            update_time := ut * 1000, project_id := none, openai_thread_id := tid },
          ?_, rfl⟩
  simp [WebhookController.buildConversationRow, hcid, ht, hmo, hct, hut, htid,
        jsTruthy, asStr, numProp]

/-- A message passing its schema yields a row for `insertMessage`, with the
row's role still inside the schema's closed role set. -/
theorem buildMessageRow_of_valid (m : Json) (conv : Option Json) (mid cid : String)
    (h : messageErrors "message" m = [])
    (hmid : m.get "id" = some (.str mid))
    (hmc : m.get "conversation_id" = some (.str cid)) :
    ∃ row, WebhookController.buildMessageRow (some m) conv = some (mid, row) ∧
      row.id = mid ∧ row.conversation_id = cid ∧
      (row.role = "user" ∨ row.role = "assistant" ∨ row.role = "system") := by
  obtain ⟨_, h2, h3, h4, h5, h6⟩ := messageErrors_nil h
  have hcidne : cid ≠ "" := by
    have h2' := h2
    rw [hmc] at h2'
    by_cases hc : cid = ""
    · simp [reqNonEmptyStr, hc] at h2'
    · exact hc
  obtain ⟨role, hrole, hroleset⟩ := roleField_nil_strCol h3
  obtain ⟨ct, hct⟩ := reqNumField_nil h4
  obtain ⟨par, hpar⟩ := optStrField_nil_strOrNull h5
  obtain ⟨an, han⟩ := authorField_nil_strOrNull h6
  refine ⟨{ id := mid, conversation_id := cid, role := role,
            content := stringifyIfTruthy (m.get "content"),
            parts := stringifyIfTruthy (m.get "parts"),
            create_time := ct * 1000, parent := par,
            children := stringifyIfTruthy (m.get "children"), author_name := an },
          ?_, rfl, rfl, hroleset⟩
  simp [WebhookController.buildMessageRow, hmid, hmc, hrole, hct, hpar, han,
        jsOrOpt, Json.truthy, hcidne, asStr, numProp]

/-! ## Claim C4 -/

/-- C4: a `message.created` event whose embedded conversation (the one the
message's `conversation_id` references) is not yet stored creates both a
conversation row and a message row, linked by that `conversation_id`, and
answers HTTP 200 `message_created`. -/
theorem C4_message_first_creates_both (payload m c : Json) (st : DBState)
    (cid mid : String)
    (hv : (validateWebhookPayload payload).isValid = true)
    (hm : payload.get "message" = some m)
    (hc : payload.get "conversation" = some c)
    (hcid : c.get "id" = some (.str cid))
    (hmid : m.get "id" = some (.str mid))
    (hmc : m.get "conversation_id" = some (.str cid))
    (hfreshc : ∀ r ∈ st.conversations, r.conversation_id ≠ cid)
    (hfreshm : ∀ r ∈ st.messages, r.id ≠ mid) :
    ∃ crow mrow,
      WebhookController.handleChatGPTWebhook "message.created" payload st
        = (.ok "success" "message.created"
             { status := "message_created", messageId := some mid },
           { projects := st.projects,
             conversations := st.conversations ++ [crow],
             messages := st.messages ++ [mrow] }) ∧
      crow.conversation_id = cid ∧ mrow.id = mid ∧ mrow.conversation_id = cid := by
  have herrs : webhookPayloadErrors payload = [] := by
    have h0 : (webhookPayloadErrors payload).isEmpty = true := hv
    exact List.isEmpty_iff.mp h0
  have hce : conversationErrors "conversation" c = [] := webhookPayloadErrors_nil_conv herrs hc
  have hme : messageErrors "message" m = [] := webhookPayloadErrors_nil_msg herrs hm
  obtain ⟨crow, hbc, hcrowid⟩ := buildConversationRow_of_valid c cid hce hcid
  obtain ⟨mrow, hbm, hmrowid, hmrowcid, _⟩ :=
    buildMessageRow_of_valid m (some c) mid cid hme hmid hmc
  have hctruthy : c.truthy = true := by
    rcases c with _ | b | n | s | xs | fs
    · simp [conversationErrors] at hce
    · simp [conversationErrors] at hce
    · simp [conversationErrors] at hce
    · simp [conversationErrors] at hce
    · simp [conversationErrors] at hce
    · simp [Json.truthy]
  have hcidb : (c.get "id").bind asStr = some cid := by
    rw [hcid]
    rfl
  have hg : DatabaseService.getConversation st cid = none := by
    unfold DatabaseService.getConversation
    exact List.find?_eq_none.mpr (fun r hr => by simpa using hfreshc r hr)
  have hfreshcrow : ∀ r ∈ st.conversations, r.conversation_id ≠ crow.conversation_id := by
    rw [hcrowid]
    exact hfreshc
  have hhcc : WebhookController.handleConversationCreated (Json.obj [("conversation", c)]) st
      = (some { status := "conversation_created", conversationId := some cid },
         { st with conversations := st.conversations ++ [crow] }) := by
    have hpg : (Json.obj [("conversation", c)]).get "project" = none := rfl
    have hcg : (Json.obj [("conversation", c)]).get "conversation" = some c := rfl
    simp only [WebhookController.handleConversationCreated, hpg, hcg,
               WebhookController.ensureProject, hbc]
    rw [insertConversation_fresh st crow hfreshcrow]
  have hens : WebhookController.ensureConversation (some c) st
      = (true, { st with conversations := st.conversations ++ [crow] }) := by
    simp only [WebhookController.ensureConversation, hctruthy, if_true, hcidb, hg, hhcc]
  have hmain : WebhookController.handleMessageCreated payload st
      = (some { status := "message_created", messageId := some mid },
         { projects := st.projects, conversations := st.conversations ++ [crow],
           messages := st.messages ++ [mrow] }) := by
    simp only [WebhookController.handleMessageCreated, hm, hc, hens, hbm]
    rw [insertMessage_fresh _ mrow
        (fun r hr => by rw [hmrowid]; exact hfreshm r hr)]
  refine ⟨crow, mrow, ?_, hcrowid, hmrowid, hmrowcid⟩
  simp only [WebhookController.handleChatGPTWebhook]
  rw [if_neg (by simp [hv])]
  simp only [WebhookController.dispatchEvent]
  rw [hmain]
  simp

/-- C4 witness: the ordering-safety law applied to the concrete C5 scenario
payload on an empty store. -/
theorem C4_message_first_creates_both_witness :
    ∃ crow mrow,
      WebhookController.handleChatGPTWebhook "message.created" payloadC5 emptyDB
        = (.ok "success" "message.created"
             { status := "message_created", messageId := some "m1" },
           { projects := [], conversations := [] ++ [crow], messages := [] ++ [mrow] }) ∧
      crow.conversation_id = "c1" ∧ mrow.id = "m1" ∧ mrow.conversation_id = "c1" :=
  C4_message_first_creates_both payloadC5 msgC5 convC5 emptyDB "c1" "m1"
    (by decide) rfl rfl rfl rfl rfl (by simp [emptyDB]) (by simp [emptyDB])

/-! ## Claim C2 -/

/-- C2 counterexample: the signature header `sha256=abc` differs in length from
the expected 64-hex-character HMAC, and the request is answered with HTTP 500
`Signature validation failed` — `crypto.timingSafeEqual` throws a `RangeError`
on buffers of unequal length and the middleware's catch maps it to 500 — not
with the claimed 401 `Invalid signature`. -/
theorem C2_counterexample_length_mismatch_500 :
    validateWebhookSignature (some "sha256=abc") (some "1700000000") bodyEx
      1700000000 exSecret = .sigValidationError ∧
    webhookChatgptRoute (some "sha256=abc") (some "1700000000") (some "message.created")
      bodyEx 1700000000 exSecret emptyDB
      = (.serverError "Signature validation failed", emptyDB) ∧
    (WebhookController.WebhookResponse.serverError "Signature validation failed").statusCode
      = 500 ∧ (500 : Nat) ≠ 401 :=
  ⟨rfl, rfl, rfl, by decide⟩

/-- C2 (amended): whenever the supplied signature, after stripping an optional
`sha256=` prefix, hex-decodes to a byte length other than the digest's 32,
`timingSafeEqual` throws and the request is answered HTTP 500 `Signature
validation failed` (never 401 `Invalid signature`). -/
theorem C2_length_mismatch_gives_500 (sig ts : String) (body : Json) (now : Int)
    (secret : String) (hsig : sig ≠ "") (hts : ts ≠ "")
    (hfresh : ∀ t, parseIntJS ts = some t → (now - t).natAbs ≤ 300)
    (hlen : (hexDecode (jsReplaceOnce sig "sha256=")).length ≠ 32) :
    validateWebhookSignature (some sig) (some ts) body now secret = .sigValidationError := by
  have hth : timingSafeEqual
      (hexDecode (hmacSha256Hex secret (ts ++ "." ++ body.stringify)))
      (hexDecode (jsReplaceOnce sig "sha256=")) = none := by
    unfold timingSafeEqual
    rw [if_neg]
    rw [hexDecode_hmacSha256Hex_length]
    exact fun hc => hlen hc.symm
  have htail : verifySigTail sig ts body secret = .sigValidationError := by
    unfold verifySigTail
    rw [hth]
    rfl
  simp only [validateWebhookSignature]
  rw [if_neg (by simp [hsig, hts])]
  rcases hp : parseIntJS ts with _ | t
  · have hstep : validateFreshSignature sig ts body now secret
        = verifySigTail sig ts body secret := by
      unfold validateFreshSignature
      rw [hp]
    rw [hstep]
    exact htail
  · have hstep : validateFreshSignature sig ts body now secret
        = if (now - t).natAbs > 300 then .tooOld else verifySigTail sig ts body secret := by
      unfold validateFreshSignature
      rw [hp]
    rw [hstep, if_neg (by have := hfresh t hp; omega)]
    exact htail

/-- C2 witness: the 500-on-length-mismatch law applied to the concrete header
`sha256=abc` (which decodes to a single byte). -/
theorem C2_length_mismatch_gives_500_witness :
    validateWebhookSignature (some "sha256=abc") (some "1700000000") bodyEx
      1700000000 exSecret = .sigValidationError :=
  C2_length_mismatch_gives_500 "sha256=abc" "1700000000" bodyEx 1700000000 exSecret
    (by decide) (by decide)
    (by intro t ht
        have h17 : parseIntJS "1700000000" = some 1700000000 := rfl
        rw [h17] at ht
        injection ht with h
        subst h
        decide)
    (by decide)

/-! ## Claim C6 -/

/-- The signature-comparison tail never reports a stale request. -/
theorem verifySigTail_ne_tooOld (sig ts : String) (body : Json) (secret : String) :
    verifySigTail sig ts body secret ≠ .tooOld := by
  unfold verifySigTail
  rcases timingSafeEqual (hexDecode (hmacSha256Hex secret (ts ++ "." ++ body.stringify)))
      (hexDecode (jsReplaceOnce sig "sha256=")) with _ | b
  · simp [tseToAuth]
  · cases b <;> simp [tseToAuth]

/-- The webhook controller only answers 400, 200 or 500 — never a 401. -/
theorem handleChatGPTWebhook_ne_unauthorized (e : String) (p : Json) (st : DBState)
    (err : String) :
    (WebhookController.handleChatGPTWebhook e p st).1 ≠ .unauthorized err := by
  simp only [WebhookController.handleChatGPTWebhook]
  split
  · simp
  · rcases hd : WebhookController.dispatchEvent e p st with ⟨_ | r, st1⟩ <;> simp [hd]

/-- C6: with both headers present and the timestamp header parsing to `T`, the
route answers 401 `Request too old` exactly when `|now − T| > 300` seconds; in
particular a replay at `T + 301` is rejected while at `T + 299` the freshness
check passes. -/
theorem C6_replay_window (sig ts : String) (eth : Option String) (body : Json)
    (now T : Int) (secret : String) (st : DBState)
    (hsig : sig ≠ "") (hts : ts ≠ "") (hT : parseIntJS ts = some T) :
    ((webhookChatgptRoute (some sig) (some ts) eth body now secret st).1
        = .unauthorized "Request too old") ↔ (now - T).natAbs > 300 := by
  have hstep : validateFreshSignature sig ts body now secret
      = if (now - T).natAbs > 300 then .tooOld else verifySigTail sig ts body secret := by
    unfold validateFreshSignature
    rw [hT]
  by_cases hold : (now - T).natAbs > 300
  · have hmw : validateWebhookSignature (some sig) (some ts) body now secret = .tooOld := by
      simp only [validateWebhookSignature]
      rw [if_neg (by simp [hsig, hts]), hstep, if_pos hold]
    unfold webhookChatgptRoute
    rw [hmw]
    simp [hold]
  · have hmw : validateWebhookSignature (some sig) (some ts) body now secret
        = verifySigTail sig ts body secret := by
      simp only [validateWebhookSignature]
      rw [if_neg (by simp [hsig, hts]), hstep, if_neg hold]
    unfold webhookChatgptRoute
    rw [hmw]
    constructor
    · intro h
      exfalso
      rcases hv : verifySigTail sig ts body secret with _ | _ | _ | _ | _
      · rw [hv] at h
        simp at h
      · exact verifySigTail_ne_tooOld sig ts body secret hv
      · rw [hv] at h
        simp at h
      · rw [hv] at h
        simp at h
      · rw [hv] at h
        exact handleChatGPTWebhook_ne_unauthorized _ body st "Request too old" h
    · intro h
      exact absurd h hold

/-- C6 witness: the replay-window law instantiated at T = 1700000000 — a replay
at T + 301 is answered 401 `Request too old`, and at T + 299 it is not. -/
theorem C6_replay_window_witness :
    ((webhookChatgptRoute (some "x") (some "1700000000") none (Json.obj [])
        1700000301 "s" emptyDB).1 = .unauthorized "Request too old") ∧
    ¬ ((webhookChatgptRoute (some "x") (some "1700000000") none (Json.obj [])
        1700000299 "s" emptyDB).1 = .unauthorized "Request too old") :=
  ⟨(C6_replay_window "x" "1700000000" none (Json.obj []) 1700000301 1700000000 "s"
      emptyDB (by decide) (by decide) rfl).mpr (by decide),
   fun h => absurd ((C6_replay_window "x" "1700000000" none (Json.obj []) 1700000299
      1700000000 "s" emptyDB (by decide) (by decide) rfl).mp h) (by decide)⟩

/-! ## Claim C7 -/

/-- C7: a payload failing schema validation is answered with HTTP 400, error
`Invalid payload` and the Joi details, before any database access — the store
is returned untouched; and the concrete payload missing `conversation.id` (with
no message present) fails with a detail whose field is `conversation.id`. -/
theorem C7_validation_short_circuit :
    (∀ (e : String) (payload : Json) (st : DBState),
        (validateWebhookPayload payload).isValid = false →
        WebhookController.handleChatGPTWebhook e payload st =
          (.badRequest "Invalid payload" (validateWebhookPayload payload).errors, st)) ∧
    (validateWebhookPayload payloadMissingId).isValid = false ∧
    (validateWebhookPayload payloadMissingId).errors =
      [("conversation.id", "\"conversation.id\" is required")] ∧
    ∀ d, (WebhookController.WebhookResponse.badRequest "Invalid payload" d).statusCode = 400 := by
  refine ⟨?_, by decide, by decide, fun d => rfl⟩
  intro e payload st h
  simp [WebhookController.handleChatGPTWebhook, h]

/-- C7 witness: the short-circuit law applied to the concrete payload missing
`conversation.id`, on an empty store. -/
theorem C7_validation_short_circuit_witness :
    WebhookController.handleChatGPTWebhook "conversation.created" payloadMissingId emptyDB =
      (.badRequest "Invalid payload" (validateWebhookPayload payloadMissingId).errors, emptyDB) :=
  C7_validation_short_circuit.1 "conversation.created" payloadMissingId emptyDB (by decide)

/-! ## Claim C8 -/

/-- C8: a schema-valid request whose event-type tag is outside the four known
tags is answered HTTP 200 with result status `ignored`, and the store is
returned untouched. -/
theorem C8_unknown_event_ignored (e : String) (payload : Json) (st : DBState)
    (hv : (validateWebhookPayload payload).isValid = true)
    (h1 : e ≠ "conversation.created") (h2 : e ≠ "conversation.updated")
    (h3 : e ≠ "message.created") (h4 : e ≠ "message.updated") :
    WebhookController.handleChatGPTWebhook e payload st =
      (.ok "success" e { status := "ignored", eventType := some e }, st) ∧
    (WebhookController.WebhookResponse.ok "success" e
      { status := "ignored", eventType := some e }).statusCode = 200 := by
  constructor
  · simp [WebhookController.handleChatGPTWebhook, WebhookController.dispatchEvent,
      hv, h1, h2, h3, h4]
  · rfl

/-- C8 witness: the unknown-tag law applied to the tag `something.else` and the
concrete valid payload of the C5 scenario, on an empty store. -/
theorem C8_unknown_event_ignored_witness :
    WebhookController.handleChatGPTWebhook "something.else" payloadC5 emptyDB =
      (.ok "success" "something.else"
        { status := "ignored", eventType := some "something.else" }, emptyDB) ∧
    (WebhookController.WebhookResponse.ok "success" "something.else"
      { status := "ignored", eventType := some "something.else" }).statusCode = 200 :=
  C8_unknown_event_ignored "something.else" payloadC5 emptyDB (by decide)
    (by decide) (by decide) (by decide) (by decide)

/-! ## Claim C10 -/

/-- C10: `ChatBETODatabaseService.insertMessage` throws — before issuing any
SQL, leaving the stored state exactly as it was — whenever conversationId is
not a non-empty string, or role is outside \x7buser, assistant, system, tool\x7d, or
content is not a string or trims to the empty string. -/
theorem C10_insert_message_validates_before_sql
    (conversationId role content : Json) (options : CBOptions)
    (freshId : String) (nowSec : Int) (st : List CBMessageRow)
    (h : isBadConversationId conversationId = true ∨ isBadRole role = true ∨
         isBadContent content = true) :
    ∃ msg, ChatBETODatabaseService.insertMessage conversationId role content options
        freshId nowSec st = (st, .error msg) := by
  cases conversationId with
  | str cid =>
    by_cases hcid : cid = ""
    · exact ⟨"conversationId es requerido y debe ser un string",
        by simp [ChatBETODatabaseService.insertMessage, hcid]⟩
    · cases role with
      | str r =>
        by_cases hr : r = "user" ∨ r = "assistant" ∨ r = "system" ∨ r = "tool"
        · cases content with
          | str cont =>
            have hct : jsTrim cont = "" := by
              rcases h with h | h | h
              · simp [isBadConversationId, hcid] at h
              · simp [isBadRole, hr] at h
              · simpa [isBadContent] using h
            by_cases hc0 : cont = ""
            · exact ⟨"content es requerido y debe ser un string no vacío",
                by simp [ChatBETODatabaseService.insertMessage, hcid, hr, hc0]⟩
            · exact ⟨"El contenido del mensaje no puede estar vacío",
                by simp [ChatBETODatabaseService.insertMessage, hcid, hr, hc0, hct]⟩
          | null => exact ⟨"content es requerido y debe ser un string no vacío",
              by simp [ChatBETODatabaseService.insertMessage, hcid, hr]⟩
          | bool b => exact ⟨"content es requerido y debe ser un string no vacío",
              by simp [ChatBETODatabaseService.insertMessage, hcid, hr]⟩
          | num n => exact ⟨"content es requerido y debe ser un string no vacío",
              by simp [ChatBETODatabaseService.insertMessage, hcid, hr]⟩
          | arr xs => exact ⟨"content es requerido y debe ser un string no vacío",
              by simp [ChatBETODatabaseService.insertMessage, hcid, hr]⟩
          | obj fs => exact ⟨"content es requerido y debe ser un string no vacío",
              by simp [ChatBETODatabaseService.insertMessage, hcid, hr]⟩
        · exact ⟨"role debe ser uno de: user, assistant, system, tool",
            by simp [ChatBETODatabaseService.insertMessage, hcid, hr]⟩
      | null => exact ⟨"role debe ser uno de: user, assistant, system, tool",
          by simp [ChatBETODatabaseService.insertMessage, hcid]⟩
      | bool b => exact ⟨"role debe ser uno de: user, assistant, system, tool",
          by simp [ChatBETODatabaseService.insertMessage, hcid]⟩
      | num n => exact ⟨"role debe ser uno de: user, assistant, system, tool",
          by simp [ChatBETODatabaseService.insertMessage, hcid]⟩
      | arr xs => exact ⟨"role debe ser uno de: user, assistant, system, tool",
          by simp [ChatBETODatabaseService.insertMessage, hcid]⟩
      | obj fs => exact ⟨"role debe ser uno de: user, assistant, system, tool",
          by simp [ChatBETODatabaseService.insertMessage, hcid]⟩
  | null => exact ⟨"conversationId es requerido y debe ser un string",
      by simp [ChatBETODatabaseService.insertMessage]⟩
  | bool b => exact ⟨"conversationId es requerido y debe ser un string",
      by simp [ChatBETODatabaseService.insertMessage]⟩
  | num n => exact ⟨"conversationId es requerido y debe ser un string",
      by simp [ChatBETODatabaseService.insertMessage]⟩
  | arr xs => exact ⟨"conversationId es requerido y debe ser un string",
      by simp [ChatBETODatabaseService.insertMessage]⟩
  | obj fs => exact ⟨"conversationId es requerido y debe ser un string",
      by simp [ChatBETODatabaseService.insertMessage]⟩

/-! ## Claim C1 -/

/-- C1 (documenting the divergence between spec and code): the raw request
body `\x7b"a": 1\x7d` parses to the object the middleware sees, its re-serialization
`\x7b"a":1\x7d` differs from the raw bytes, and the middleware — which hashes
`JSON.stringify(req.body)`, not the raw bytes the server captures into
`req.rawBody` — rejects the signature computed over the raw bytes with 401
`Invalid signature`, while accepting the one computed over the
re-serialization. -/
theorem C1_raw_body_signature_rejected :
    jsonParse rawBodyEx = some bodyEx ∧
    Json.stringify bodyEx ≠ rawBodyEx ∧
    validateWebhookSignature (some sigOverRawEx) (some "1700000000") bodyEx
      1700000000 exSecret = .invalidSignature ∧
    validateWebhookSignature (some sigOverParsedEx) (some "1700000000") bodyEx
      1700000000 exSecret = .pass :=
  ⟨rfl, by decide, rfl, rfl⟩

/-! ## Claim C5 -/

/-- C5 counterexample: in the end-to-end scenario the stored content of `m1` is
the four-character JSON serialization `"hi"` (with quotes) — the handler stores
`JSON.stringify(message.content)` — not the claimed bare string `hi`. -/
theorem C5_counterexample_content_json_stringified :
    ((webhookChatgptRoute (some sigC5) (some "1700000000") (some "message.created")
        payloadC5 1700000000 exSecret emptyDB).2.messages.map MessageRow.content)
      = [some "\"hi\""] ∧
    some "\"hi\"" ≠ some ("hi" : String) :=
  ⟨rfl, by decide⟩

/-- C5 (amended): POSTing the scenario envelope with a code-valid signature and
an in-window timestamp creates conversation `c1` titled `T` and message `m1`
with role `user` and content `"hi"` (the JSON serialization of the string
`hi`), answering `status success`, `eventType message.created`, result
`\x7bstatus: message_created, messageId: m1\x7d`. -/
theorem C5_end_to_end_scenario :
    webhookChatgptRoute (some sigC5) (some "1700000000") (some "message.created")
        payloadC5 1700000000 exSecret emptyDB
      = (.ok "success" "message.created"
           { status := "message_created", messageId := some "m1" },
         { projects := [],
           conversations := [{ conversation_id := "c1", title := "T", model := "gpt-4",
                               create_time := 1700000000000, update_time := 1700000000000,
                               project_id := none, openai_thread_id := none }],
           messages := [{ id := "m1", conversation_id := "c1", role := "user",
                          content := some "\"hi\"", parts := none,
                          create_time := 1700000000000, parent := none, children := none,
                          author_name := none }] }) := rfl

/-! ## Claim C9 -/

/-- C9 counterexample: a schema-valid `message.created` payload whose message
carries no content is accepted (HTTP 200, `message_created`) and persisted with
`content = NULL` — the webhook pipeline does not enforce non-empty content. -/
theorem C9_counterexample_null_content_persisted :
    (validateWebhookPayload payloadNoContent).isValid = true ∧
    (WebhookController.handleChatGPTWebhook "message.created" payloadNoContent stWithC1).1
      = .ok "success" "message.created"
          { status := "message_created", messageId := some "m2" } ∧
    ∃ r, r ∈ (WebhookController.handleChatGPTWebhook "message.created" payloadNoContent
        stWithC1).2.messages ∧ r.content = none :=
  ⟨by decide, rfl,
   ⟨{ id := "m2", conversation_id := "c1", role := "user", content := none,
      parts := none, create_time := 1700000000000, parent := none, children := none,
      author_name := none }, by decide, rfl⟩⟩

/-- C9 (amended): every message `ChatBETODatabaseService.insertMessage`
persists satisfies the full invariant (non-empty normalized content, role in
the closed set \x7buser, assistant, system, tool\x7d), because that function validates
its inputs; the webhook ingestion pipeline guarantees only the role invariant
(its schema's closed set \x7buser, assistant, system\x7d) — stored content may be
NULL, as the counterexample shows. -/
theorem C9_content_and_role_invariants :
    (∀ (conversationId role content : Json) (options : CBOptions) (freshId : String)
        (nowSec : Int) (st st' : List CBMessageRow) (mid : String),
       ChatBETODatabaseService.insertMessage conversationId role content options
           freshId nowSec st = (st', .ok mid) →
       ∀ r ∈ st', r ∈ st ∨ cbRowInvariant r) ∧
    (∀ (payload : Json) (st : DBState),
       (validateWebhookPayload payload).isValid = true →
       ∀ r ∈ (WebhookController.handleChatGPTWebhook "message.created" payload st).2.messages,
         r ∈ st.messages ∨ (r.role = "user" ∨ r.role = "assistant" ∨ r.role = "system")) := by
  constructor
  · intro conversationId role content options freshId nowSec st st' mid h
    cases conversationId with
    | str cid =>
      by_cases hcid : cid = ""
      · simp [ChatBETODatabaseService.insertMessage, hcid] at h
      · cases role with
        | str ro =>
          by_cases hro : ro = "user" ∨ ro = "assistant" ∨ ro = "system" ∨ ro = "tool"
          · cases content with
            | str cont =>
              by_cases hc0 : cont = ""
              · simp [ChatBETODatabaseService.insertMessage, hcid, hro, hc0] at h
              · by_cases hct : jsTrim cont = ""
                · simp [ChatBETODatabaseService.insertMessage, hcid, hro, hc0, hct] at h
                · simp only [ChatBETODatabaseService.insertMessage] at h
                  rw [if_neg hcid, if_pos hro, if_neg hc0, if_neg hct] at h
                  by_cases hdup : (st.any fun x =>
                      decide (x.id = ChatBETODatabaseService.optDefault options.id freshId))
                        = true
                  · rw [if_pos hdup] at h
                    injection h with h1 h2
                    subst h1
                    intro r hr
                    rcases List.mem_map.mp hr with ⟨x, hx, hfx⟩
                    by_cases hxid : x.id = ChatBETODatabaseService.optDefault options.id freshId
                    · right
                      rw [← hfx, if_pos hxid]
                      exact ⟨hct, hro⟩
                    · rw [← hfx, if_neg hxid]
                      exact Or.inl hx
                  · rw [if_neg hdup] at h
                    injection h with h1 h2
                    subst h1
                    intro r hr
                    rcases List.mem_append.mp hr with hin | hin
                    · exact Or.inl hin
                    · right
                      rw [List.mem_singleton.mp hin]
                      exact ⟨hct, hro⟩
            | null => simp [ChatBETODatabaseService.insertMessage, hcid, hro] at h
            | bool b => simp [ChatBETODatabaseService.insertMessage, hcid, hro] at h
            | num n => simp [ChatBETODatabaseService.insertMessage, hcid, hro] at h
            | arr xs => simp [ChatBETODatabaseService.insertMessage, hcid, hro] at h
            | obj fs => simp [ChatBETODatabaseService.insertMessage, hcid, hro] at h
          · simp [ChatBETODatabaseService.insertMessage, hcid, hro] at h
        | null => simp [ChatBETODatabaseService.insertMessage, hcid] at h
        | bool b => simp [ChatBETODatabaseService.insertMessage, hcid] at h
        | num n => simp [ChatBETODatabaseService.insertMessage, hcid] at h
        | arr xs => simp [ChatBETODatabaseService.insertMessage, hcid] at h
        | obj fs => simp [ChatBETODatabaseService.insertMessage, hcid] at h
    | null => simp [ChatBETODatabaseService.insertMessage] at h
    | bool b => simp [ChatBETODatabaseService.insertMessage] at h
    | num n => simp [ChatBETODatabaseService.insertMessage] at h
    | arr xs => simp [ChatBETODatabaseService.insertMessage] at h
    | obj fs => simp [ChatBETODatabaseService.insertMessage] at h
  · intro payload st hv r hr
    have herrs : webhookPayloadErrors payload = [] := by
      have h0 : (webhookPayloadErrors payload).isEmpty = true := hv
      exact List.isEmpty_iff.mp h0
    have hstate : (WebhookController.handleChatGPTWebhook "message.created" payload st).2
        = (WebhookController.handleMessageCreated payload st).2 := by
      simp only [WebhookController.handleChatGPTWebhook]
      rw [if_neg (by simp [hv])]
      simp only [WebhookController.dispatchEvent]
      rcases hd : WebhookController.handleMessageCreated payload st with ⟨_ | res, st1⟩ <;>
        simp [hd]
    rw [hstate] at hr
    simp only [WebhookController.handleMessageCreated] at hr
    rcases hens : WebhookController.ensureConversation (payload.get "conversation") st
        with ⟨b, st1⟩
    rw [hens] at hr
    have hst1 : st1.messages = st.messages := by
      have h0 := ensureConversation_messages (payload.get "conversation") st
      rw [hens] at h0
      exact h0
    cases b
    · have hr1 : r ∈ st1.messages := hr
      rw [hst1] at hr1
      exact Or.inl hr1
    · rcases hmsg : payload.get "message" with _ | m
      · rw [hmsg] at hr
        have hr1 : r ∈ st1.messages := hr
        rw [hst1] at hr1
        exact Or.inl hr1
      · rw [hmsg] at hr
        have hme : messageErrors "message" m = [] := webhookPayloadErrors_nil_msg herrs hmsg
        obtain ⟨s1, hs1, _⟩ := reqNonEmptyStr_eq_nil (messageErrors_nil hme).1
        obtain ⟨s2, hs2, _⟩ := reqNonEmptyStr_eq_nil (messageErrors_nil hme).2.1
        obtain ⟨row, hbm, _, _, hroles⟩ :=
          buildMessageRow_of_valid m (payload.get "conversation") s1 s2 hme hs1 hs2
        rw [hbm] at hr
        have hr1 : r ∈ (DatabaseService.insertMessage st1 row).messages := hr
        unfold DatabaseService.insertMessage at hr1
        by_cases hdup : (st1.messages.any fun x => decide (x.id = row.id)) = true
        · rw [if_pos hdup] at hr1
          have hr2 : r ∈ st1.messages.map (fun x =>
              if x.id = row.id then
                { x with role := row.role, content := row.content, parts := row.parts,
                         create_time := row.create_time, parent := row.parent,
                         children := row.children, author_name := row.author_name }
              else x) := hr1
          rcases List.mem_map.mp hr2 with ⟨x, hx, hfx⟩
          by_cases hxid : x.id = row.id
          · right
            rw [← hfx, if_pos hxid]
            exact hroles
          · rw [← hfx, if_neg hxid]
            rw [hst1] at hx
            exact Or.inl hx
        · rw [if_neg hdup] at hr1
          have hr2 : r ∈ st1.messages ++ [row] := hr1
          rcases List.mem_append.mp hr2 with hin | hin
          · rw [hst1] at hin
            exact Or.inl hin
          · right
            rw [List.mem_singleton.mp hin]
            exact hroles

/-- C9 witness: both invariant laws applied at a concrete successful insert of
a trimmed `tool` message and at the concrete null-content webhook delivery. -/
theorem C9_content_and_role_invariants_witness :
    (∀ r ∈ (ChatBETODatabaseService.insertMessage (Json.str "c") (Json.str "tool")
        (Json.str " hola ") {} "u1" 1 []).1,
       r ∈ ([] : List CBMessageRow) ∨ cbRowInvariant r) ∧
    (∀ r ∈ (WebhookController.handleChatGPTWebhook "message.created" payloadNoContent
        stWithC1).2.messages,
       r ∈ stWithC1.messages ∨
         (r.role = "user" ∨ r.role = "assistant" ∨ r.role = "system")) :=
  ⟨C9_content_and_role_invariants.1 (Json.str "c") (Json.str "tool") (Json.str " hola ")
      {} "u1" 1 []
      [{ id := "u1", conversation_id := "c", role := "tool", content := "hola",
         content_type := "text", author_name := none, parent_message_id := none,
         created_at_timestamp_ms := 1000, status := "finished_successfully" }]
      "u1" rfl,
   C9_content_and_role_invariants.2 payloadNoContent stWithC1 (by decide)⟩

/-- C10 witness: the validation-throw law applied to an empty conversationId
on an empty store. -/
theorem C10_insert_message_validates_before_sql_witness :
    ∃ msg, ChatBETODatabaseService.insertMessage (Json.str "") (Json.str "user")
      (Json.str "hi") {} "u1" 0 [] = (([] : List CBMessageRow), .error msg) :=
  C10_insert_message_validates_before_sql (Json.str "") (Json.str "user") (Json.str "hi")
    {} "u1" 0 [] (Or.inl (by decide))

end ChatBeto
